import Mathlib

/-!
# gslb-switcher: health checker, failover evaluator, scheduler and OPNsense provider

A shallow embedding of `internal/gslb/gslb.go` (the evaluator `eval`, the
address comparison `compareIPs`, the scheduler `Run`), of
`internal/checkers/http.go` (`SimpleHTTPChecker.CheckHealth`), of
`internal/opnsense/ogslb.go` (the provider `OpnSenseGslb`) and of the in-memory
provider of `internal/gslb/gslb_test.go`, followed by the properties proved
about them.

Provider methods are Go interface methods and may have side effects, so every
method is a function from the provider state to a result and a new state.
Go's `(value, error)` results are pairs whose error component is an
`Option GoError` (`none` is Go's `nil`). What the code calls in the standard
library (URL parsing, the HTTP client, the JSON decoder, the clock) is a
parameter of the embedding; time is a clock in nanoseconds that an HTTP attempt,
a sleep and an evaluation advance.
-/

namespace GslbSwitcher

/-! ## Go errors -/

/-- A Go `error` value: either a base error carrying its message, or the result
of `fmt.Errorf(msg + "%w", err)`, which wraps `err` behind the text `msg`. -/
inductive GoError where
  | New (msg : String)
  | Wrap (msg : String) (err : GoError)
deriving DecidableEq, Repr

/-- The call `fmt.Errorf(msg + "%w", err)`. -/
def Errorf (msg : String) (err : GoError) : GoError := GoError.Wrap msg err

/-- The method `Error()`: the text of an error; the verb `%w` prints the wrapped error. -/
def GoError.Error : GoError → String
  | .New msg => msg
  | .Wrap msg err => msg ++ err.Error

/-- The function `errors.Unwrap`. -/
def GoError.Unwrap : GoError → Option GoError
  | .New _ => none
  | .Wrap _ err => some err

/-! ## `net.ParseIP` and `IP.Equal` (Go standard library)

`compareIPs` calls `net.ParseIP` and `IP.Equal`. They are transcribed from the
standard library (`net/ip.go`, `net/netip/netip.go`): `net.ParseIP` is
`netip.ParseAddr` with every zoned address rejected, returned in 16-byte form.
Strings are scanned character by character; every character the parser accepts
is ASCII, so this agrees with Go's byte-wise scan. -/

/-- A `net.IP`: a byte slice. `net.ParseIP` yields `none` for Go's `nil`. -/
abbrev IP := List Nat

/-- The test `c >= '0' && c <= '9'`. -/
def isDigit (c : Char) : Bool := 48 ≤ c.toNat && c.toNat ≤ 57

/-- The loop of `netip.parseIPv4Fields` over the remaining characters; `prev` is
the character before the current one (`none` at index 0). -/
def parseIPv4FieldsLoop : List Char → Option Char → Nat → Nat → Nat → List Nat → Option (List Nat)
  | [], _, val, pos, _, fields =>
    if pos < 3 then none else some (fields.set 3 val)
  | c :: rest, prev, val, pos, digLen, fields =>
    if isDigit c then
      if digLen == 1 && val == 0 then none
      else
        let val1 := val * 10 + (c.toNat - 48)
        if val1 > 255 then none
        else parseIPv4FieldsLoop rest (some c) val1 pos (digLen + 1) fields
    else if c == '.' then
      if prev.isNone || rest.isEmpty || prev == some '.' then none
      else if pos == 3 then none
      else parseIPv4FieldsLoop rest (some c) 0 (pos + 1) 0 (fields.set pos val)
    else none

/-- The function `netip.parseIPv4Fields` on the substring `s`: the four octets. -/
def parseIPv4Fields (s : List Char) : Option (List Nat) :=
  parseIPv4FieldsLoop s none 0 0 0 [0, 0, 0, 0]

/-- The value of a hexadecimal digit, `none` for any other character. -/
def hexVal (c : Char) : Option Nat :=
  if 48 ≤ c.toNat && c.toNat ≤ 57 then some (c.toNat - 48)
  else if 97 ≤ c.toNat && c.toNat ≤ 102 then some (c.toNat - 97 + 10)
  else if 65 ≤ c.toNat && c.toNat ≤ 70 then some (c.toNat - 65 + 10)
  else none

/-- The inner loop of `netip.parseIPv6` reading one hexadecimal group: `none` when
the group is rejected, else the accumulated value, the number of digits read
and the unread rest. `acc` is a `uint32`. -/
def parseHexGroup : List Char → Nat → Nat → Option (Nat × Nat × List Char)
  | [], off, acc => some (acc, off, [])
  | c :: rest, off, acc =>
    match hexVal c with
    | none => some (acc, off, c :: rest)
    | some d =>
      let acc1 := (acc * 16 + d) % 2 ^ 32
      if off > 3 then none
      else if acc1 > 65535 then none
      else parseHexGroup rest (off + 1) acc1

/-- Writes the four octets `f` into `ip[i:i+4]`. -/
def putFields (ip : List Nat) (i : Nat) (f : List Nat) : List Nat :=
  (((ip.set i (f.getD 0 0)).set (i + 1) (f.getD 1 0)).set (i + 2) (f.getD 2 0)).set (i + 3) (f.getD 3 0)

/-- The main loop `for i < 16` of `netip.parseIPv6`. The first argument counts the
iterations still allowed: every iteration that continues adds 2 to `i`, so
started at `i = 0` with 8 the count reaches 0 exactly when `i = 16`. The result
is `none` on a parse error, else the loop's final `(i, s, ellipsis, ip)`. -/
def parseIPv6Loop : Nat → Nat → List Char → Int → List Nat → Option (Nat × List Char × Int × List Nat)
  | 0, i, s, ellipsis, ip => some (i, s, ellipsis, ip)
  | n + 1, i, s, ellipsis, ip =>
    if ¬ i < 16 then some (i, s, ellipsis, ip)
    else
      match parseHexGroup s 0 0 with
      | none => none
      | some (acc, off, rest) =>
        if off == 0 then none
        else if rest.head? == some '.' then
          if ellipsis < 0 && i != 12 then none
          else if i + 4 > 16 then none
          else
            match parseIPv4Fields s with
            | none => none
            | some f => some (i + 4, [], ellipsis, putFields ip i f)
        else
          let ip1 := (ip.set i (acc / 256)).set (i + 1) (acc % 256)
          let i1 := i + 2
          match rest with
          | [] => some (i1, [], ellipsis, ip1)
          | c :: rest1 =>
            if c != ':' then none
            else
              match rest1 with
              | [] => none
              | c1 :: rest2 =>
                if c1 == ':' then
                  if ellipsis ≥ 0 then none
                  else
                    match rest2 with
                    | [] => some (i1, [], (i1 : Int), ip1)
                    | _ :: _ => parseIPv6Loop n i1 rest2 (i1 : Int) ip1
                else parseIPv6Loop n i1 rest1 ellipsis ip1

/-- The expansion of the ellipsis at the end of `netip.parseIPv6`:
`for j := i - 1; j >= ellipsis; j-- { ip[j+n] = ip[j] }` and then
`clear(ip[ellipsis : ellipsis+n])`, with `n = 16 - i`. -/
def expandEllipsis (ip : List Nat) (i ellipsis : Nat) : List Nat :=
  let n := 16 - i
  let moved := (List.range (i - ellipsis)).foldl
    (fun acc k => acc.set (i - 1 - k + n) (acc.getD (i - 1 - k) 0)) ip
  (List.range n).foldl (fun acc k => acc.set (ellipsis + k) 0) moved

/-- The function `netip.parseIPv6`: the 16 bytes and the zone of the address. -/
def parseIPv6 (inp : List Char) : Option (List Nat × List Char) :=
  let s0 := inp.takeWhile (fun c => c != '%')
  let hasZone := inp.any (fun c => c == '%')
  let zone := (inp.dropWhile (fun c => c != '%')).drop 1
  if hasZone && zone.isEmpty then none
  else
    let lead := s0.take 2 == [':', ':']
    let ellipsis0 : Int := if lead then 0 else -1
    let s1 := if lead then s0.drop 2 else s0
    if lead && s1.isEmpty then some (List.replicate 16 0, zone)
    else
      match parseIPv6Loop 8 0 s1 ellipsis0 (List.replicate 16 0) with
      | none => none
      | some (i, s, ellipsis, ip) =>
        if !s.isEmpty then none
        else if i < 16 then
          if ellipsis < 0 then none
          else some (expandEllipsis ip i ellipsis.toNat, zone)
        else if ellipsis ≥ 0 then none
        else some (ip, zone)

/-- The function `netip.parseIPv4` followed by `As16`: the IPv4-mapped 16-byte form. -/
def parseIPv4 (s : List Char) : Option (List Nat × List Char) :=
  match parseIPv4Fields s with
  | none => none
  | some f => some ([0, 0, 0, 0, 0, 0, 0, 0, 0, 0, 255, 255] ++ f, [])

/-- The scan of `netip.ParseAddr`: the first `.`, `:` or `%` decides how the whole
string `s` is parsed. -/
def ParseAddrScan (s : List Char) : List Char → Option (List Nat × List Char)
  | [] => none
  | c :: rest =>
    if c == '.' then parseIPv4 s
    else if c == ':' then parseIPv6 s
    else if c == '%' then none
    else ParseAddrScan s rest

/-- The function `netip.ParseAddr`, giving the address as 16 bytes (`As16`) and its zone. -/
def ParseAddr (s : String) : Option (List Nat × List Char) := ParseAddrScan s.toList s.toList

/-- The function `net.ParseIP`: `nil` (here `none`) when `netip.ParseAddr` fails or
the address has a zone, else the 16-byte form of the address. -/
def ParseIP (s : String) : Option IP :=
  match ParseAddr s with
  | none => none
  | some (ip, zone) => if !zone.isEmpty then none else some ip

/-- The prefix of an IPv4-mapped address, `v4InV6Prefix` of `net/ip.go`. -/
def v4InV6Prefix : List Nat := [0, 0, 0, 0, 0, 0, 0, 0, 0, 0, 255, 255]

/-- The method `IP.Equal`: equal slices, or a 4-byte and a 16-byte form of one IPv4 address. -/
def IP.Equal (ip x : IP) : Bool :=
  if ip.length == x.length then ip == x
  else if ip.length == 4 && x.length == 16 then x.take 12 == v4InV6Prefix && ip == x.drop 12
  else if ip.length == 16 && x.length == 4 then ip.take 12 == v4InV6Prefix && ip.drop 12 == x
  else false

/-! ## `internal/gslb/gslb.go` -/

/-- The function `compareIPs`. -/
def compareIPs (ip1 ip2 : String) : Bool :=
  let addr1 := ParseIP ip1
  let addr2 := ParseIP ip2
  match addr1, addr2 with
  | some a1, some a2 => IP.Equal a1 a2
  | _, _ => false

/-- The interface `Gslb`, for a provider whose state has type `σ`. A method maps
the state before the call to its results and the state after the call. -/
structure Gslb (σ : Type) where
  CheckPrimaryHealth : σ → (Bool × Option GoError) × σ
  PrimaryIP : σ → String × σ
  SecondaryIP : σ → String × σ
  GetCurrentIP : σ → (String × Option GoError) × σ
  SwitchToPrimaryIP : σ → Option GoError × σ
  SwitchToSecondaryIP : σ → Option GoError × σ

/-- The function `eval`: the returned error and the provider state afterwards.
The conditions `healthy && !compareIPs(rec, o.PrimaryIP())` and
`!healthy && !compareIPs(rec, o.SecondaryIP())` short-circuit, so `PrimaryIP()`
is called only when `healthy` and `SecondaryIP()` only when `!healthy`. The
argument of each `log.Println` is evaluated (one more call of the getter); the
log output itself is not part of the model. -/
def eval {σ : Type} (o : Gslb σ) (s0 : σ) : Option GoError × σ :=
  match o.CheckPrimaryHealth s0 with
  | ((_, some err), s1) => (some (Errorf "checking primary health: " err), s1)
  | ((healthy, none), s1) =>
    match o.GetCurrentIP s1 with
    | ((_, some err), s2) => (some (Errorf "getting GSLB record IP: " err), s2)
    | ((rec, none), s2) =>
      if healthy then
        match o.PrimaryIP s2 with
        | (primary, s3) =>
          if !compareIPs rec primary then
            match o.SwitchToPrimaryIP s3 with
            | (some err, s4) => (some (Errorf "updating GSLB record to primary IP: " err), s4)
            | (none, s4) => (none, (o.PrimaryIP s4).2)
          else (none, s3)
      else
        match o.SecondaryIP s2 with
        | (secondary, s3) =>
          if !compareIPs rec secondary then
            match o.SwitchToSecondaryIP s3 with
            | (some err, s4) => (some (Errorf "updating GSLB record to secondary IP: " err), s4)
            | (none, s4) => (none, (o.SecondaryIP s4).2)
          else (none, s3)

/-! ## Observing the calls of a provider -/

/-- One call of a provider method together with what it returned. -/
inductive Event where
  | CheckPrimaryHealth (healthy : Bool) (err : Option GoError)
  | PrimaryIP (ip : String)
  | SecondaryIP (ip : String)
  | GetCurrentIP (ip : String) (err : Option GoError)
  | SwitchToPrimaryIP (err : Option GoError)
  | SwitchToSecondaryIP (err : Option GoError)
deriving DecidableEq, Repr

/-- The provider `o` with a call log: every method behaves as in `o` and appends
its call, with the returned values, to the log. -/
def recording {σ : Type} (o : Gslb σ) : Gslb (σ × List Event) where
  CheckPrimaryHealth := fun st =>
    let r := o.CheckPrimaryHealth st.1
    (r.1, (r.2, st.2 ++ [Event.CheckPrimaryHealth r.1.1 r.1.2]))
  PrimaryIP := fun st =>
    let r := o.PrimaryIP st.1
    (r.1, (r.2, st.2 ++ [Event.PrimaryIP r.1]))
  SecondaryIP := fun st =>
    let r := o.SecondaryIP st.1
    (r.1, (r.2, st.2 ++ [Event.SecondaryIP r.1]))
  GetCurrentIP := fun st =>
    let r := o.GetCurrentIP st.1
    (r.1, (r.2, st.2 ++ [Event.GetCurrentIP r.1.1 r.1.2]))
  SwitchToPrimaryIP := fun st =>
    let r := o.SwitchToPrimaryIP st.1
    (r.1, (r.2, st.2 ++ [Event.SwitchToPrimaryIP r.1]))
  SwitchToSecondaryIP := fun st =>
    let r := o.SwitchToSecondaryIP st.1
    (r.1, (r.2, st.2 ++ [Event.SwitchToSecondaryIP r.1]))

/-- The calls one run of `eval` makes on the provider `o` from state `s0`, in order. -/
def calls {σ : Type} (o : Gslb σ) (s0 : σ) : List Event :=
  (eval (recording o) (s0, [])).2.2

/-- A call of `SwitchToPrimaryIP`. -/
def Event.isSwitchToPrimaryIP : Event → Bool
  | .SwitchToPrimaryIP _ => true
  | _ => false

/-- A call of `SwitchToSecondaryIP`. -/
def Event.isSwitchToSecondaryIP : Event → Bool
  | .SwitchToSecondaryIP _ => true
  | _ => false

/-- A call of `GetCurrentIP`. -/
def Event.isGetCurrentIP : Event → Bool
  | .GetCurrentIP _ _ => true
  | _ => false

/-- A provider write: a call of `SwitchToPrimaryIP` or of `SwitchToSecondaryIP`. -/
def Event.isWrite (e : Event) : Bool := e.isSwitchToPrimaryIP || e.isSwitchToSecondaryIP

/-- The provider writes one run of `eval` issues, in order. -/
def writes {σ : Type} (o : Gslb σ) (s0 : σ) : List Event := (calls o s0).filter Event.isWrite

/-! ## `internal/gslb/gslb_test.go`: the in-memory provider -/

/-- The struct `mockGslb`. -/
structure mockGslb where
  primaryIPval : String
  secondaryIPval : String
  IsPrimaryUp : Bool
  currentIP : String
deriving DecidableEq, Repr

/-- The function `newMockGslb`. -/
def newMockGslb : mockGslb :=
  { primaryIPval := "10.0.1.1", secondaryIPval := "20.0.2.2", IsPrimaryUp := true, currentIP := "10.0.1.1" }

/-- The methods of `mockGslb`. -/
def mockGslb.provider : Gslb mockGslb where
  CheckPrimaryHealth := fun m => ((m.IsPrimaryUp, none), m)
  PrimaryIP := fun m => (m.primaryIPval, m)
  SecondaryIP := fun m => (m.secondaryIPval, m)
  GetCurrentIP := fun m => ((m.currentIP, none), m)
  SwitchToPrimaryIP := fun m => (none, { m with currentIP := m.primaryIPval })
  SwitchToSecondaryIP := fun m => (none, { m with currentIP := m.secondaryIPval })

/-- The steps of `TestGslbEval` for a list of verdicts: before each cycle the
test sets `g.IsPrimaryUp` to the verdict, then runs `eval(g)`. The result lists
the provider writes of each cycle. -/
def runCycles : mockGslb → List Bool → List (List Event)
  | _, [] => []
  | m, v :: vs =>
    let r := eval (recording mockGslb.provider) ({ m with IsPrimaryUp := v }, [])
    r.2.2.filter Event.isWrite :: runCycles r.2.1 vs

/-- The writes expected of a cycle whose verdict is `v` when the verdict of the
cycle before was `prev`: none when the verdict did not change, else the one
switch towards the target of `v`, which the in-memory provider answers with nil. -/
def cycleWrites (prev v : Bool) : List Event :=
  if v = prev then []
  else [if v then Event.SwitchToPrimaryIP none else Event.SwitchToSecondaryIP none]

/-! ## Providers used as concrete inputs -/

/-- An in-memory provider whose record is at the secondary IP while the primary is healthy. -/
def mockAtSecondary : mockGslb :=
  { primaryIPval := "10.0.1.1", secondaryIPval := "20.0.2.2", IsPrimaryUp := true, currentIP := "20.0.2.2" }

/-- An in-memory provider whose record is at the primary IP while the primary is down. -/
def mockPrimaryDown : mockGslb :=
  { primaryIPval := "10.0.1.1", secondaryIPval := "20.0.2.2", IsPrimaryUp := false, currentIP := "10.0.1.1" }

/-- An in-memory provider configured with a host name in place of the primary IP,
the record holding the same text. -/
def mockHostName : mockGslb :=
  { primaryIPval := "primary.example.com", secondaryIPval := "20.0.2.2", IsPrimaryUp := true,
    currentIP := "primary.example.com" }

/-- An in-memory provider whose record holds the primary IPv6 address in another spelling. -/
def mockOtherSpelling : mockGslb :=
  { primaryIPval := "2001:db8::1", secondaryIPval := "2001:db8::2", IsPrimaryUp := true,
    currentIP := "2001:0DB8::1" }

/-- A provider over the state of `mockGslb` whose reads succeed and whose writes
fail, leaving the record as it is. -/
def failingWrites : Gslb mockGslb where
  CheckPrimaryHealth := fun m => ((m.IsPrimaryUp, none), m)
  PrimaryIP := fun m => (m.primaryIPval, m)
  SecondaryIP := fun m => (m.secondaryIPval, m)
  GetCurrentIP := fun m => ((m.currentIP, none), m)
  SwitchToPrimaryIP := fun m => (some (GoError.New "setHostOverride request failed: 500"), m)
  SwitchToSecondaryIP := fun m => (some (GoError.New "setHostOverride request failed: 500"), m)

/-- A provider over the state of `mockGslb` whose `GetCurrentIP` fails. -/
def failingRead : Gslb mockGslb where
  CheckPrimaryHealth := fun m => ((m.IsPrimaryUp, none), m)
  PrimaryIP := fun m => (m.primaryIPval, m)
  SecondaryIP := fun m => (m.secondaryIPval, m)
  GetCurrentIP := fun m =>
    (("", some (GoError.New "host override record has no A or AAAA record selected")), m)
  SwitchToPrimaryIP := fun m => (none, { m with currentIP := m.primaryIPval })
  SwitchToSecondaryIP := fun m => (none, { m with currentIP := m.secondaryIPval })

/-- A provider over the state of `mockGslb` whose health check fails. -/
def failingHealth : Gslb mockGslb where
  CheckPrimaryHealth := fun m => ((false, some (GoError.New "missing protocol scheme")), m)
  PrimaryIP := fun m => (m.primaryIPval, m)
  SecondaryIP := fun m => (m.secondaryIPval, m)
  GetCurrentIP := fun m => ((m.currentIP, none), m)
  SwitchToPrimaryIP := fun m => (none, { m with currentIP := m.primaryIPval })
  SwitchToSecondaryIP := fun m => (none, { m with currentIP := m.secondaryIPval })

/-! ## `internal/checkers/http.go` -/

/-- A Go result `(v, err)` of a library call, of which exactly one is non-nil. -/
inductive Result (α : Type) where
  | ok (v : α)
  | error (err : GoError)
deriving DecidableEq, Repr

/-- An `*http.Response` as far as the program reads it: the status code, the
status line and the body (in whatever form `B` the reader decodes it from). -/
structure Response (B : Type) where
  StatusCode : Int
  Status : String
  Body : B
deriving DecidableEq, Repr

/-- The constant `time.Second`, a `time.Duration` in nanoseconds. -/
def Second : Nat := 1000000000

/-- What `CheckHealth` uses of the standard library, over a world `ω`:
`Parse` is the error of `url.Parse`, `Get timeout url` is `client.Get(url)` on a
client with that `Timeout`, `Sleep` is `time.Sleep`. -/
structure HTTPEnv (ω : Type) where
  Parse : String → Option GoError
  Get : Nat → String → ω → Result (Response Unit) × ω
  Sleep : Nat → ω → ω

/-- The struct `SimpleHTTPChecker`. -/
structure SimpleHTTPChecker where
  URL : String
deriving DecidableEq, Repr

/-- The function `NewSimpleHTTPChecker`. -/
def NewSimpleHTTPChecker (url : String) : SimpleHTTPChecker := { URL := url }

/-- The constant `maxRetries` of `CheckHealth`. -/
def maxRetries : Nat := 3

/-- The constant `retryDelay` of `CheckHealth`. -/
def retryDelay : Nat := 10 * Second

/-- The loop `for attempt := 1; attempt <= maxRetries; attempt++` of `CheckHealth`,
with the current `attempt` and `lastStatus`. The first argument counts the
iterations still allowed; started at `attempt = 1` with `maxRetries` it reaches
0 exactly when `attempt > maxRetries`, where the loop ends and the final
`return false, lastStatus, nil` is taken. The deferred `resp.Body.Close()` has
no part in the result and is left out. -/
def CheckHealthLoop {ω : Type} (env : HTTPEnv ω) (c : SimpleHTTPChecker) :
    Nat → Nat → String → ω → (Bool × String × Option GoError) × ω
  | 0, _, lastStatus, w => ((false, lastStatus, none), w)
  | n + 1, attempt, lastStatus, w =>
    if ¬ attempt ≤ maxRetries then ((false, lastStatus, none), w)
    else
      match env.Get (5 * Second) c.URL w with
      | (Result.error err, w1) =>
        if attempt < maxRetries then
          CheckHealthLoop env c n (attempt + 1) err.Error (env.Sleep retryDelay w1)
        else ((false, err.Error, none), w1)
      | (Result.ok resp, w1) =>
        if resp.StatusCode ≥ 200 ∧ resp.StatusCode < 300 then ((true, resp.Status, none), w1)
        else if attempt < maxRetries then
          CheckHealthLoop env c n (attempt + 1) resp.Status (env.Sleep retryDelay w1)
        else ((false, resp.Status, none), w1)

/-- The method `SimpleHTTPChecker.CheckHealth`. -/
def SimpleHTTPChecker.CheckHealth {ω : Type} (env : HTTPEnv ω) (c : SimpleHTTPChecker) (w : ω) :
    (Bool × String × Option GoError) × ω :=
  match env.Parse c.URL with
  | some err => ((false, "", some err), w)
  | none => CheckHealthLoop env c maxRetries 1 "" w

/-! ### A scripted network, as the test servers of `http_test.go` -/

/-- What `CheckHealth` does to the world: an HTTP attempt with its outcome, or a wait. -/
inductive CheckEvent where
  | Get (timeout : Nat) (url : String) (result : Result (Response Unit))
  | Sleep (d : Nat)
deriving DecidableEq, Repr

/-- A network given by the outcome and the duration of every successive attempt
(`outcome 0` is the first attempt), as the handlers of `http_test.go` that
answer by `attemptCount`; `Parse` is the behaviour of `url.Parse`. -/
structure Script where
  Parse : String → Option GoError
  outcome : Nat → Result (Response Unit)
  took : Nat → Nat

/-- The state of a scripted network: the attempts made, the time elapsed in
nanoseconds, and what happened so far. -/
structure ScriptState where
  attempts : Nat
  clock : Nat
  log : List CheckEvent
deriving DecidableEq, Repr

/-- The scripted network before any attempt. -/
def ScriptState.init : ScriptState := { attempts := 0, clock := 0, log := [] }

/-- The environment of a scripted network: an attempt takes its scripted time
and returns its scripted outcome, a sleep takes exactly its duration. -/
def Script.env (sc : Script) : HTTPEnv ScriptState where
  Parse := sc.Parse
  Get := fun timeout url w =>
    (sc.outcome w.attempts,
      { attempts := w.attempts + 1, clock := w.clock + sc.took w.attempts,
        log := w.log ++ [CheckEvent.Get timeout url (sc.outcome w.attempts)] })
  Sleep := fun d w => { w with clock := w.clock + d, log := w.log ++ [CheckEvent.Sleep d] }

/-- An outcome that `CheckHealth` takes as healthy: a response with status in [200,300). -/
def Result.healthy : Result (Response Unit) → Bool
  | Result.ok resp => decide (resp.StatusCode ≥ 200 ∧ resp.StatusCode < 300)
  | Result.error _ => false

/-- The detail `CheckHealth` records for an outcome: the status line of a
response, the text of a transport error. -/
def Result.detail : Result (Response Unit) → String
  | Result.ok resp => resp.Status
  | Result.error err => err.Error

/-- An HTTP attempt. -/
def CheckEvent.isGet : CheckEvent → Bool
  | .Get _ _ _ => true
  | .Sleep _ => false

/-- A wait. -/
def CheckEvent.isSleep : CheckEvent → Bool
  | .Get _ _ _ => false
  | .Sleep _ => true

/-- An HTTP attempt that did not yield a healthy response. -/
def CheckEvent.isFailedGet : CheckEvent → Bool
  | .Get _ _ r => !r.healthy
  | .Sleep _ => false

/-- A response with the given status code and status line. -/
def statusResponse (code : Int) (status : String) : Result (Response Unit) :=
  Result.ok { StatusCode := code, Status := status, Body := () }

/-- The server of the test "succeeds on second attempt after one failure": 503, then 200. -/
def scriptSecondAttempt : Script where
  Parse := fun _ => none
  outcome := fun k =>
    if k = 0 then statusResponse 503 "503 Service Unavailable" else statusResponse 200 "200 OK"
  took := fun _ => 1000000

/-- The server of the test "fails after 3 attempts with unhealthy status": always 503. -/
def scriptAlways503 : Script where
  Parse := fun _ => none
  outcome := fun _ => statusResponse 503 "503 Service Unavailable"
  took := fun _ => 1000000

/-- An unreachable target, as in the test "fails after 3 connection error
attempts": every attempt is a transport failure that uses up the timeout. -/
def scriptUnreachable : Script where
  Parse := fun _ => none
  outcome := fun _ => Result.error (GoError.New "dial tcp: connection refused")
  took := fun _ => 5 * Second

/-- A checker whose URL `url.Parse` rejects, as in the test "invalid URL returns error". -/
def scriptInvalidURL : Script where
  Parse := fun _ => some (GoError.New "missing protocol scheme")
  outcome := fun _ => statusResponse 200 "200 OK"
  took := fun _ => 1000000

/-! ## `internal/opnsense/ogslb.go` -/

/-- The interface `HealthChecker` of `gslb.go`, for a checker acting on a world `ω`. -/
structure HealthChecker (ω : Type) where
  CheckHealth : ω → (Bool × String × Option GoError) × ω

/-- The checker `SimpleHTTPChecker` as a `HealthChecker` on the world of `env`. -/
def SimpleHTTPChecker.checker {ω : Type} (env : HTTPEnv ω) (c : SimpleHTTPChecker) :
    HealthChecker ω where
  CheckHealth := c.CheckHealth env

/-- The struct `GslbConfig` of `gslb.go`. -/
structure GslbConfig (ω : Type) where
  Host : String
  PrimaryIP : String
  SecondaryIP : String
  PrimaryHealthChecker : HealthChecker ω

/-- The struct `OpnSenseGslb`. -/
structure OpnSenseGslb (ω : Type) where
  cfg : GslbConfig ω
  recordUUID : String
  epHost : String
  epAuth : String

/-- The struct `unboundSearchHostOverrideRequest`. -/
structure unboundSearchHostOverrideRequest where
  RowCount : Int
  SearchPhrase : String
deriving DecidableEq, Repr

/-- One of the options `A` and `AAAA` of the field `rr` of `unboundGetHostOverrideResponse`. -/
structure RROption where
  Value : String
  Selected : Int
deriving DecidableEq, Repr

/-- The field `rr` of `unboundGetHostOverrideResponse`. -/
structure HostRR where
  A : RROption
  AAAA : RROption
deriving DecidableEq, Repr

/-- The field `host` of `unboundGetHostOverrideResponse`. -/
structure GetHost where
  Enabled : String
  Hostname : String
  Domain : String
  RR : HostRR
  MXPrio : String
  MX : String
  TTL : String
  Server : String
  Description : String
deriving DecidableEq, Repr

/-- The struct `unboundGetHostOverrideResponse`. -/
structure unboundGetHostOverrideResponse where
  Host : GetHost
deriving DecidableEq, Repr

/-- The field `host` of `unboundSetHostOverrideRequest`. -/
structure SetHost where
  Enabled : String
  Hostname : String
  Domain : String
  RR : String
  MXPrio : String
  MX : String
  TTL : String
  Server : String
  Description : String
deriving DecidableEq, Repr

/-- The struct `unboundSetHostOverrideRequest`. -/
structure unboundSetHostOverrideRequest where
  Host : SetHost
deriving DecidableEq, Repr

/-- The struct `unboundSetHostOverrideResponse`. -/
structure unboundSetHostOverrideResponse where
  Result : String
deriving DecidableEq, Repr

/-- The struct `unboundServiceResponse`. -/
structure unboundServiceResponse where
  Response : String
deriving DecidableEq, Repr

/-- The value a request body is marshalled from. `json.Marshal` cannot fail on
these structs of strings and integers, so the two branches `marshaling ...` of
the source are never taken. -/
inductive Payload where
  | search (p : unboundSearchHostOverrideRequest)
  | set (p : unboundSetHostOverrideRequest)
deriving DecidableEq, Repr

/-- The `*http.Request` built by `doRequest`: method, URL, body (`none` for the
empty body), the `Content-Type` header, and the credentials whose base64
encoding follows `Basic ` in the `Authorization` header when `setAuthHeader`
sets it. -/
structure Request where
  Method : String
  URL : String
  Body : Option Payload
  ContentType : String
  BasicAuth : Option String
deriving DecidableEq, Repr

/-- What the provider uses of the standard library and of the OPNsense API, over
a backend state `β` and response bodies `B`: `NewRequest method url` is the
error of `http.NewRequest`, `Do timeout req` is `client.Do(req)` on a client with
that `Timeout`, and each `decode` is `json.NewDecoder(resp.Body).Decode` into the
struct named. -/
structure Backend (β B : Type) where
  NewRequest : String → String → Option GoError
  Do : Nat → Request → β → Result (Response B) × β
  decodeGet : B → Result unboundGetHostOverrideResponse
  decodeSet : B → Result unboundSetHostOverrideResponse
  decodeService : B → Result unboundServiceResponse

/-- The method `doRequest`, with `setAuthHeader` inlined. -/
def OpnSenseGslb.doRequest {ω β B : Type} (env : Backend β B) (o : OpnSenseGslb ω)
    (method url : String) (body : Option Payload) (b : β) : Result (Response B) × β :=
  match env.NewRequest method (o.epHost ++ url) with
  | some err => (Result.error (Errorf "creating request: " err), b)
  | none =>
    let req : Request :=
      { Method := method, URL := o.epHost ++ url, Body := body, ContentType := "application/json",
        BasicAuth := if o.epAuth != "" then some o.epAuth else none }
    match env.Do (10 * Second) req b with
    | (Result.error err, b1) => (Result.error (Errorf "sending request: " err), b1)
    | (Result.ok resp, b1) => (Result.ok resp, b1)

/-- The method `PrimaryIP`. -/
def OpnSenseGslb.PrimaryIP {ω : Type} (o : OpnSenseGslb ω) : String := o.cfg.PrimaryIP

/-- The method `SecondaryIP`. -/
def OpnSenseGslb.SecondaryIP {ω : Type} (o : OpnSenseGslb ω) : String := o.cfg.SecondaryIP

/-- The method `CheckPrimaryHealth`. The line it prints when the check is not
ok is not part of the model. -/
def OpnSenseGslb.CheckPrimaryHealth {ω : Type} (o : OpnSenseGslb ω) (w : ω) :
    (Bool × Option GoError) × ω :=
  match o.cfg.PrimaryHealthChecker.CheckHealth w with
  | ((_, _, some err), w1) => ((false, some (Errorf "checking primary health: " err)), w1)
  | ((ok, _, none), w1) => ((ok, none), w1)

/-- The method `getHostOverride`. -/
def OpnSenseGslb.getHostOverride {ω β B : Type} (env : Backend β B) (o : OpnSenseGslb ω) (b : β) :
    Result unboundGetHostOverrideResponse × β :=
  match o.doRequest env "GET" ("/api/unbound/settings/getHostOverride/" ++ o.recordUUID) none b with
  | (Result.error err, b1) => (Result.error (Errorf "getHostOverride request: " err), b1)
  | (Result.ok resp, b1) =>
    if resp.StatusCode ≠ 200 then
      (Result.error (GoError.New ("getHostOverride request failed: " ++ resp.Status)), b1)
    else
      match env.decodeGet resp.Body with
      | Result.error err => (Result.error (Errorf "decoding getHostOverride response: " err), b1)
      | Result.ok getResp => (Result.ok getResp, b1)

/-- The method `GetCurrentIP`. -/
def OpnSenseGslb.GetCurrentIP {ω β B : Type} (env : Backend β B) (o : OpnSenseGslb ω) (b : β) :
    (String × Option GoError) × β :=
  match o.getHostOverride env b with
  | (Result.error err, b1) => (("", some (Errorf "getting host override: " err)), b1)
  | (Result.ok override, b1) =>
    if override.Host.RR.A.Selected == 1 && override.Host.Server == "" then
      (("", some (GoError.New "host override record has A record selected but no server IP set")), b1)
    else if override.Host.RR.AAAA.Selected == 1 && override.Host.Server == "" then
      (("", some (GoError.New "host override record has AAAA record selected but no server IP set")),
        b1)
    else if override.Host.RR.A.Selected == 1 then ((override.Host.Server, none), b1)
    else if override.Host.RR.AAAA.Selected == 1 then ((override.Host.Server, none), b1)
    else (("", some (GoError.New "host override record has no A or AAAA record selected")), b1)

/-- The method `restartUnboundService`. -/
def OpnSenseGslb.restartUnboundService {ω β B : Type} (env : Backend β B) (o : OpnSenseGslb ω)
    (b : β) : Option GoError × β :=
  match o.doRequest env "POST" "/api/unbound/service/reconfigure" none b with
  | (Result.error err, b1) => (some (Errorf "reconfigure request: " err), b1)
  | (Result.ok resp, b1) =>
    if resp.StatusCode ≠ 200 then
      (some (GoError.New ("reconfigure request failed: " ++ resp.Status)), b1)
    else
      match env.decodeService resp.Body with
      | Result.error err => (some (Errorf "decoding reconfigure response: " err), b1)
      | Result.ok setResp =>
        if setResp.Response ≠ "OK" then
          (some (GoError.New ("reconfigure request failed: unexpected result " ++ setResp.Response)),
            b1)
        else (none, b1)

/-- The method `switchToIP`. -/
def OpnSenseGslb.switchToIP {ω β B : Type} (env : Backend β B) (o : OpnSenseGslb ω) (ip : String)
    (b : β) : Option GoError × β :=
  match o.getHostOverride env b with
  | (Result.error err, b1) => (some (Errorf "getting host override: " err), b1)
  | (Result.ok override, b1) =>
    let rr? : Option String :=
      if override.Host.RR.A.Selected == 1 then some "A"
      else if override.Host.RR.AAAA.Selected == 1 then some "AAAA"
      else none
    match rr? with
    | none => (some (GoError.New "host override record has no A or AAAA record selected"), b1)
    | some rr =>
      let reqPayload : unboundSetHostOverrideRequest :=
        { Host :=
            { Enabled := override.Host.Enabled, Hostname := override.Host.Hostname,
              Domain := override.Host.Domain, RR := rr, MXPrio := override.Host.MXPrio,
              MX := override.Host.MX, TTL := override.Host.TTL, Server := ip,
              Description := override.Host.Description } }
      match o.doRequest env "POST" ("/api/unbound/settings/setHostOverride/" ++ o.recordUUID)
          (some (Payload.set reqPayload)) b1 with
      | (Result.error err, b2) => (some (Errorf "setHostOverride request: " err), b2)
      | (Result.ok resp, b2) =>
        if resp.StatusCode ≠ 200 then
          (some (GoError.New ("setHostOverride request failed: " ++ resp.Status)), b2)
        else
          match env.decodeSet resp.Body with
          | Result.error err => (some (Errorf "decoding setHostOverride response: " err), b2)
          | Result.ok setResp =>
            if setResp.Result ≠ "saved" then
              (some (GoError.New
                ("setHostOverride request failed: unexpected result " ++ setResp.Result)), b2)
            else
              match o.restartUnboundService env b2 with
              | (some err, b3) => (some (Errorf "restarting Unbound service: " err), b3)
              | (none, b3) => (none, b3)

/-- The method `SwitchToPrimaryIP`. -/
def OpnSenseGslb.SwitchToPrimaryIP {ω β B : Type} (env : Backend β B) (o : OpnSenseGslb ω)
    (b : β) : Option GoError × β :=
  o.switchToIP env o.PrimaryIP b

/-- The method `SwitchToSecondaryIP`. -/
def OpnSenseGslb.SwitchToSecondaryIP {ω β B : Type} (env : Backend β B) (o : OpnSenseGslb ω)
    (b : β) : Option GoError × β :=
  o.switchToIP env o.SecondaryIP b

/-- The provider `OpnSenseGslb` as a `Gslb`: its state is the world of the health
checker together with the state of the backend. -/
def OpnSenseGslb.provider {ω β B : Type} (env : Backend β B) (o : OpnSenseGslb ω) :
    Gslb (ω × β) where
  CheckPrimaryHealth := fun s => ((o.CheckPrimaryHealth s.1).1, ((o.CheckPrimaryHealth s.1).2, s.2))
  PrimaryIP := fun s => (o.PrimaryIP, s)
  SecondaryIP := fun s => (o.SecondaryIP, s)
  GetCurrentIP := fun s => ((o.GetCurrentIP env s.2).1, (s.1, (o.GetCurrentIP env s.2).2))
  SwitchToPrimaryIP := fun s =>
    ((o.SwitchToPrimaryIP env s.2).1, (s.1, (o.SwitchToPrimaryIP env s.2).2))
  SwitchToSecondaryIP := fun s =>
    ((o.SwitchToSecondaryIP env s.2).1, (s.1, (o.SwitchToSecondaryIP env s.2).2))

/-! ### A backend that stores the record, as the test servers of `ogslb_test.go` -/

/-- The response bodies of the storing backend: the JSON documents of the three
endpoints, or a text that is not JSON. -/
inductive StoreBody where
  | get (r : unboundGetHostOverrideResponse)
  | set (r : unboundSetHostOverrideResponse)
  | service (r : unboundServiceResponse)
  | text (s : String)
deriving DecidableEq, Repr

/-- The state of the storing backend: the host-override record it holds, whether
it accepts a `setHostOverride`, whether its `reconfigure` answers OK, and the
requests it has received. -/
structure StoreState where
  host : SetHost
  acceptSet : Bool
  reconfigureOK : Bool
  requests : List Request
deriving DecidableEq, Repr

/-- The document `getHostOverride` serves for a stored record: the option of
`rr` that the record names is the selected one. -/
def StoreState.serve (h : SetHost) : unboundGetHostOverrideResponse :=
  { Host :=
      { Enabled := h.Enabled, Hostname := h.Hostname, Domain := h.Domain,
        RR :=
          { A := { Value := "A (IPv4 address)", Selected := if h.RR == "A" then 1 else 0 },
            AAAA := { Value := "AAAA (IPv6 address)", Selected := if h.RR == "AAAA" then 1 else 0 } },
        MXPrio := h.MXPrio, MX := h.MX, TTL := h.TTL, Server := h.Server,
        Description := h.Description } }

/-- A response with status 200 and the given body. -/
def okResponse (body : StoreBody) : Result (Response StoreBody) :=
  Result.ok { StatusCode := 200, Status := "200 OK", Body := body }

/-- The answer to a request for an unknown path. -/
def notFoundResponse : Result (Response StoreBody) :=
  Result.ok { StatusCode := 404, Status := "404 Not Found", Body := StoreBody.text "404 page not found" }

/-- A backend at `epHost` holding the record `uuid`: `getHostOverride` serves
the stored record, an accepted `setHostOverride` stores the posted record and
answers `saved`, `reconfigure` answers `OK` when the service reloads. Every
request is logged. -/
def storeBackend (epHost uuid : String) : Backend StoreState StoreBody where
  NewRequest := fun _ _ => none
  Do := fun _ req st =>
    let st1 := { st with requests := st.requests ++ [req] }
    if req.Method == "GET" then
      if req.URL == epHost ++ ("/api/unbound/settings/getHostOverride/" ++ uuid) then
        (okResponse (StoreBody.get (StoreState.serve st.host)), st1)
      else (notFoundResponse, st1)
    else
      match req.Body with
      | some (Payload.set p) =>
        if req.URL == epHost ++ ("/api/unbound/settings/setHostOverride/" ++ uuid) then
          if st.acceptSet then
            (okResponse (StoreBody.set { Result := "saved" }), { st1 with host := p.Host })
          else (okResponse (StoreBody.set { Result := "failed" }), st1)
        else (notFoundResponse, st1)
      | none =>
        if req.URL == epHost ++ "/api/unbound/service/reconfigure" then
          (okResponse (StoreBody.service { Response := if st.reconfigureOK then "OK" else "failed" }),
            st1)
        else (notFoundResponse, st1)
      | _ => (notFoundResponse, st1)
  decodeGet := fun body =>
    match body with
    | StoreBody.get r => Result.ok r
    | _ => Result.error (GoError.New "json: cannot unmarshal")
  decodeSet := fun body =>
    match body with
    | StoreBody.set r => Result.ok r
    | _ => Result.error (GoError.New "json: cannot unmarshal")
  decodeService := fun body =>
    match body with
    | StoreBody.service r => Result.ok r
    | _ => Result.error (GoError.New "json: cannot unmarshal")

/-- A health checker that always reports healthy, for providers whose health
check plays no part. -/
def alwaysHealthy : HealthChecker Unit where
  CheckHealth := fun w => ((true, "200 OK", none), w)

/-- The provider of `TestSwitchToPrimaryIP`, with a secondary IP added. -/
def testProvider : OpnSenseGslb Unit :=
  { cfg := { Host := "test.local", PrimaryIP := "10.0.0.1", SecondaryIP := "10.0.0.2",
             PrimaryHealthChecker := alwaysHealthy },
    recordUUID := "test-uuid", epHost := "http://127.0.0.1:8080", epAuth := "" }

/-- A provider as the tests build it without a secondary IP: `SecondaryIP` is the empty string. -/
def providerNoSecondary : OpnSenseGslb Unit :=
  { cfg := { Host := "test.local", PrimaryIP := "10.0.0.1", SecondaryIP := "",
             PrimaryHealthChecker := alwaysHealthy },
    recordUUID := "test-uuid", epHost := "http://127.0.0.1:8080", epAuth := "" }

/-- The record of `TestSwitchToPrimaryIP`: an A record at 10.0.0.2. -/
def testRecord : SetHost :=
  { Enabled := "1", Hostname := "test", Domain := "local", RR := "A", MXPrio := "", MX := "",
    TTL := "300", Server := "10.0.0.2", Description := "Test record" }

/-- A working storing backend holding `testRecord`. -/
def testStore : StoreState :=
  { host := testRecord, acceptSet := true, reconfigureOK := true, requests := [] }

/-- The backend the test provider talks to. -/
def testBackend : Backend StoreState StoreBody := storeBackend "http://127.0.0.1:8080" "test-uuid"

/-- A working storing backend whose record is at the primary IP of `testProvider`. -/
def storeAtPrimary : StoreState :=
  { host := { testRecord with Server := "10.0.0.1" }, acceptSet := true, reconfigureOK := true,
    requests := [] }

/-- The test provider with the HTTP checker of an unreachable target as its health checker. -/
def unreachableProvider : OpnSenseGslb ScriptState :=
  { cfg := { Host := "test.local", PrimaryIP := "10.0.0.1", SecondaryIP := "10.0.0.2",
             PrimaryHealthChecker :=
               (NewSimpleHTTPChecker "http://localhost:99999").checker scriptUnreachable.env },
    recordUUID := "test-uuid", epHost := "http://127.0.0.1:8080", epAuth := "" }

/-! ## `internal/gslb/gslb.go`: the scheduler `Run` -/

/-- The `context.Context` passed to `Run`: `cancelAt` is the instant at which
`ctx.Done()` is closed (`none` when the context is never cancelled) and `Err` is
what `ctx.Err()` returns from then on. Instants and durations are in nanoseconds. -/
structure Context where
  cancelAt : Option Nat
  Err : GoError
deriving DecidableEq, Repr

/-- What `Run` depends on besides its arguments: `took s` is the time the
evaluation begun in provider state `s` takes, and `doneFirst t` is the choice
`select` makes at instant `t` when both channels are ready at once. -/
structure RunWorld (σ : Type) where
  took : σ → Nat
  doneFirst : Nat → Bool

/-- One evaluation cycle of `Run`: the instant `eval` began, the time it took
and what it returned (which `Run` only logs). -/
structure Cycle where
  start : Nat
  took : Nat
  result : Option GoError
deriving DecidableEq, Repr

/-- The state of a running `Run`: the provider, the clock and the cycles so far. -/
structure RunState (σ : Type) where
  provider : σ
  now : Nat
  cycles : List Cycle

/-- The function `Run`, observed for a number of iterations of its `for` loop
(the first argument after `interval`). Each iteration evaluates
`time.After(interval)` anew, a timer that fires `interval` after the instant the
`select` is entered; `ctx.Done()` is ready from `cancelAt` on. The `select` takes
the channel that is ready first: on the timer `eval` runs and the loop goes on,
on `ctx.Done()` the function returns `ctx.Err()`. The result is `some err` when
`Run` returned `err`, and `none` when it is still looping after the iterations
observed. -/
def Run {σ : Type} (world : RunWorld σ) (ctx : Context) (o : Gslb σ) (interval : Nat) :
    Nat → RunState σ → Option GoError × RunState σ
  | 0, st => (none, st)
  | n + 1, st =>
    let fire := st.now + interval
    match ctx.cancelAt with
    | some t =>
      if max t st.now < fire ∨ (max t st.now = fire ∧ world.doneFirst st.now = true) then
        (some ctx.Err, { st with now := max t st.now })
      else
        Run world ctx o interval n
          { provider := (eval o st.provider).2, now := fire + world.took st.provider,
            cycles := st.cycles ++
              [{ start := fire, took := world.took st.provider, result := (eval o st.provider).1 }] }
    | none =>
      Run world ctx o interval n
        { provider := (eval o st.provider).2, now := fire + world.took st.provider,
          cycles := st.cycles ++
            [{ start := fire, took := world.took st.provider, result := (eval o st.provider).1 }] }

/-- A world in which every evaluation takes 7 seconds. -/
def sevenSecondEvals : RunWorld mockGslb where
  took := fun _ => 7 * Second
  doneFirst := fun _ => true

/-- A context that is never cancelled. -/
def neverCancelled : Context := { cancelAt := none, Err := GoError.New "context canceled" }

/-- A context cancelled after 150 seconds. -/
def cancelledAt150 : Context :=
  { cancelAt := some (150 * Second), Err := GoError.New "context canceled" }

/-- The state of `Run` when it is called at instant 0 on the provider state `s`. -/
def RunState.start {σ : Type} (s : σ) : RunState σ := { provider := s, now := 0, cycles := [] }

/-! ## `internal/opnsense/ogslb.go`: finding the record -/

/-- A row of `unboundSearchHostOverrideResponse`. -/
structure SearchRow where
  UUID : String
  Hostname : String
  Domain : String
  ResourceRecord : String
deriving DecidableEq, Repr

/-- The struct `unboundSearchHostOverrideResponse`. -/
structure unboundSearchHostOverrideResponse where
  Rows : List SearchRow
deriving DecidableEq, Repr

/-- A `Backend` together with `json.NewDecoder(resp.Body).Decode` into
`unboundSearchHostOverrideResponse`. -/
structure SearchBackend (β B : Type) extends Backend β B where
  decodeSearch : B → Result unboundSearchHostOverrideResponse

/-- The function `strings.HasPrefix`. The comparison is by characters, which for
the strings of Lean (valid UTF-8) is the comparison by bytes. -/
def HasPrefix (s pre : String) : Bool := pre.toList.isPrefixOf s.toList

/-- The loop `for _, row := range searchResp.Rows` of `getGslbRecordUUID` over
the rows left, with the current `uuid`, followed by the check `uuid == ""` after
the loop. -/
def getGslbRecordUUIDLoop (hostname : String) : List SearchRow → String → String × Option GoError
  | [], uuid =>
    if uuid == "" then ("", some (GoError.New ("no GSLB record found for hostname " ++ hostname)))
    else (uuid, none)
  | row :: rest, uuid =>
    if !HasPrefix row.ResourceRecord "A " && !HasPrefix row.ResourceRecord "AAAA " then
      getGslbRecordUUIDLoop hostname rest uuid
    else if row.Hostname == hostname || row.Hostname ++ "." ++ row.Domain == hostname then
      if uuid != "" then
        ("", some (GoError.New ("multiple GSLB records found for hostname " ++ hostname)))
      else getGslbRecordUUIDLoop hostname rest row.UUID
    else getGslbRecordUUIDLoop hostname rest uuid

/-- The method `getGslbRecordUUID`. -/
def OpnSenseGslb.getGslbRecordUUID {ω β B : Type} (env : SearchBackend β B) (o : OpnSenseGslb ω)
    (hostname : String) (b : β) : (String × Option GoError) × β :=
  let reqPayload : unboundSearchHostOverrideRequest := { RowCount := 10, SearchPhrase := hostname }
  match o.doRequest env.toBackend "POST" "/api/unbound/settings/searchHostOverride/"
      (some (Payload.search reqPayload)) b with
  | (Result.error err, b1) => (("", some (Errorf "searchHostOverride request: " err)), b1)
  | (Result.ok resp, b1) =>
    if resp.StatusCode ≠ 200 then
      (("", some (GoError.New ("searchHostOverride request failed: " ++ resp.Status))), b1)
    else
      match env.decodeSearch resp.Body with
      | Result.error err => (("", some (Errorf "decoding searchHostOverride response: " err)), b1)
      | Result.ok searchResp => (getGslbRecordUUIDLoop hostname searchResp.Rows "", b1)

/-- The function `NewOpnSenseGslb`. -/
def NewOpnSenseGslb {ω β B : Type} (env : SearchBackend β B) (host auth : String)
    (cfg : GslbConfig ω) (b : β) : Result (OpnSenseGslb ω) × β :=
  let o : OpnSenseGslb ω := { cfg := cfg, recordUUID := "", epHost := host, epAuth := auth }
  match o.getGslbRecordUUID env cfg.Host b with
  | ((_, some err), b1) => (Result.error (Errorf "getting GSLB record: " err), b1)
  | ((uuid, none), b1) => (Result.ok { o with recordUUID := uuid }, b1)

/-- The rows the claim about `NewOpnSenseGslb` speaks of: those whose `rr` starts
with `A ` or `AAAA ` and whose hostname, or hostname, dot and domain, is `host`. -/
def consideredRows (host : String) (rows : List SearchRow) : List SearchRow :=
  rows.filter (fun row =>
    (HasPrefix row.ResourceRecord "A " || HasPrefix row.ResourceRecord "AAAA ") &&
    (row.Hostname == host || row.Hostname ++ "." ++ row.Domain == host))

/-- A backend that answers every request with status 200 and the given rows, as
the test servers of the `TestNewOpnSenseGslb` tests. -/
def rowsBackend (rows : List SearchRow) : SearchBackend Unit unboundSearchHostOverrideResponse where
  NewRequest := fun _ _ => none
  Do := fun _ _ st =>
    (Result.ok { StatusCode := 200, Status := "200 OK", Body := { Rows := rows } }, st)
  decodeGet := fun _ => Result.error (GoError.New "json: cannot unmarshal")
  decodeSet := fun _ => Result.error (GoError.New "json: cannot unmarshal")
  decodeService := fun _ => Result.error (GoError.New "json: cannot unmarshal")
  decodeSearch := fun body => Result.ok body

/-- The configuration of the `TestNewOpnSenseGslb` tests. -/
def testConfig : GslbConfig Unit :=
  { Host := "test-host", PrimaryIP := "10.0.0.1", SecondaryIP := "10.0.0.2",
    PrimaryHealthChecker := alwaysHealthy }

/-- The rows of `TestNewOpnSenseGslb_IgnoresNonARecords`: an MX record and an A record. -/
def rowsMxAndA : List SearchRow :=
  [{ UUID := "mx-record", Hostname := "test-host", Domain := "local",
     ResourceRecord := "MX (Mail server)" },
   { UUID := "a-record", Hostname := "test-host", Domain := "local",
     ResourceRecord := "A (IPv4 address)" }]

/-- One matching A record whose `uuid` is the empty string. -/
def rowsEmptyUUID : List SearchRow :=
  [{ UUID := "", Hostname := "test-host", Domain := "local", ResourceRecord := "A (IPv4 address)" }]

/-- Two matching A records, the first with the empty string as `uuid`. -/
def rowsEmptyThenA : List SearchRow :=
  [{ UUID := "", Hostname := "test-host", Domain := "local", ResourceRecord := "A (IPv4 address)" },
   { UUID := "uuid-2", Hostname := "test-host", Domain := "local",
     ResourceRecord := "A (IPv4 address)" }]

/-- Two matching A records, the second with the empty string as `uuid`. -/
def rowsAThenEmpty : List SearchRow :=
  [{ UUID := "uuid-1", Hostname := "test-host", Domain := "local",
     ResourceRecord := "A (IPv4 address)" },
   { UUID := "", Hostname := "test-host", Domain := "local", ResourceRecord := "A (IPv4 address)" }]

/-- The field `recordUUID` of the provider `NewOpnSenseGslb` returned, or its error. -/
def Result.recordUUID {ω : Type} : Result (OpnSenseGslb ω) → Result String
  | Result.ok o => Result.ok o.recordUUID
  | Result.error err => Result.error err

/-! ## Observing the requests of the provider -/

/-- The backend `env` with a log of the requests that reach `client.Do`: it
behaves as `env` and appends every request to the log. -/
def Backend.logging {β B : Type} (env : Backend β B) : Backend (β × List Request) B where
  NewRequest := env.NewRequest
  Do := fun timeout req st =>
    ((env.Do timeout req st.1).1, ((env.Do timeout req st.1).2, st.2 ++ [req]))
  decodeGet := env.decodeGet
  decodeSet := env.decodeSet
  decodeService := env.decodeService

/-- The requests one call of `switchToIP` sends to the backend, in order. -/
def OpnSenseGslb.requests {ω β B : Type} (env : Backend β B) (o : OpnSenseGslb ω) (ip : String)
    (b : β) : List Request :=
  (o.switchToIP env.logging ip (b, [])).2.2

/-- The request `doRequest` builds for a method, a path and a body. -/
def OpnSenseGslb.request {ω : Type} (o : OpnSenseGslb ω) (method url : String)
    (body : Option Payload) : Request :=
  { Method := method, URL := o.epHost ++ url, Body := body, ContentType := "application/json",
    BasicAuth := if o.epAuth != "" then some o.epAuth else none }

/-- The request of `getHostOverride`. -/
def OpnSenseGslb.getRequest {ω : Type} (o : OpnSenseGslb ω) : Request :=
  o.request "GET" ("/api/unbound/settings/getHostOverride/" ++ o.recordUUID) none

/-- The `setHostOverride` request carrying the payload `p`. -/
def OpnSenseGslb.setRequest {ω : Type} (o : OpnSenseGslb ω) (p : unboundSetHostOverrideRequest) :
    Request :=
  o.request "POST" ("/api/unbound/settings/setHostOverride/" ++ o.recordUUID) (some (Payload.set p))

/-- The request of `restartUnboundService`. -/
def OpnSenseGslb.reconfigureRequest {ω : Type} (o : OpnSenseGslb ω) : Request :=
  o.request "POST" "/api/unbound/service/reconfigure" none

/-- The payload the claims describe for a switch to `ip` of the fetched record
`override`: `rr` is `A` when A is selected and `AAAA` otherwise, `server` is
`ip`, the other fields are those of the record. -/
def switchPayload (override : unboundGetHostOverrideResponse) (ip : String) :
    unboundSetHostOverrideRequest :=
  { Host :=
      { Enabled := override.Host.Enabled, Hostname := override.Host.Hostname,
        Domain := override.Host.Domain,
        RR := if override.Host.RR.A.Selected = 1 then "A" else "AAAA",
        MXPrio := override.Host.MXPrio, MX := override.Host.MX, TTL := override.Host.TTL,
        Server := ip, Description := override.Host.Description } }

/-- A backend that serves the fixed record `r` from `getHostOverride`, answers
`saved` to `setHostOverride` and `OK` to `reconfigure`, as the test servers of
`TestSwitchToPrimaryIP` that answer by `callCount`. -/
def cannedBackend (r : unboundGetHostOverrideResponse) : Backend Unit StoreBody where
  NewRequest := fun _ _ => none
  Do := fun _ req st =>
    if req.Method == "GET" then (okResponse (StoreBody.get r), st)
    else
      match req.Body with
      | some (Payload.set _) => (okResponse (StoreBody.set { Result := "saved" }), st)
      | none => (okResponse (StoreBody.service { Response := "OK" }), st)
      | _ => (notFoundResponse, st)
  decodeGet := fun body =>
    match body with
    | StoreBody.get r => Result.ok r
    | _ => Result.error (GoError.New "json: cannot unmarshal")
  decodeSet := fun body =>
    match body with
    | StoreBody.set r => Result.ok r
    | _ => Result.error (GoError.New "json: cannot unmarshal")
  decodeService := fun body =>
    match body with
    | StoreBody.service r => Result.ok r
    | _ => Result.error (GoError.New "json: cannot unmarshal")

/-- A fetched record with both A and AAAA selected. -/
def recordBothSelected : unboundGetHostOverrideResponse :=
  { Host :=
      { Enabled := "1", Hostname := "test", Domain := "local",
        RR := { A := { Value := "A (IPv4 address)", Selected := 1 },
                AAAA := { Value := "AAAA (IPv6 address)", Selected := 1 } },
        MXPrio := "", MX := "", TTL := "300", Server := "10.0.0.2", Description := "Test record" } }

/-- The record of `TestSwitchToIP_AAAARecord`: only AAAA selected. -/
def recordAAAA : unboundGetHostOverrideResponse :=
  { Host :=
      { Enabled := "1", Hostname := "test", Domain := "local",
        RR := { A := { Value := "", Selected := 0 },
                AAAA := { Value := "AAAA (IPv6 address)", Selected := 1 } },
        MXPrio := "", MX := "", TTL := "", Server := "2001:db8::2", Description := "" } }

/-- A storing backend holding `testRecord` that rejects `setHostOverride`, as the
server of `TestSwitchToIP_SetHostOverrideFailure`. -/
def storeRejecting : StoreState :=
  { host := testRecord, acceptSet := false, reconfigureOK := true, requests := [] }

/-- A storing backend holding `testRecord` whose `reconfigure` fails, as the
server of `TestSwitchToIP_ReconfigureFailure`. -/
def storeNoReconfigure : StoreState :=
  { host := testRecord, acceptSet := true, reconfigureOK := false, requests := [] }

/-! ## Properties -/

/-- The log does not change what the provider does: with and without the log
`eval` returns the same error and leaves the same provider state, and the log
only grows. -/
theorem eval_recording {σ : Type} (o : Gslb σ) (s0 : σ) (t : List Event) :
    (eval (recording o) (s0, t)).1 = (eval o s0).1 ∧
    (eval (recording o) (s0, t)).2.1 = (eval o s0).2 ∧
    ∃ u, (eval (recording o) (s0, t)).2.2 = t ++ u := by
  unfold eval
  rcases h1 : o.CheckPrimaryHealth s0 with ⟨⟨healthy, _ | e1⟩, s1⟩
  · rcases h2 : o.GetCurrentIP s1 with ⟨⟨cur, _ | e2⟩, s2⟩
    · cases healthy
      · rcases h3 : o.SecondaryIP s2 with ⟨q, s3⟩
        by_cases hc : compareIPs cur q = true
        · simp [recording, h1, h2, h3, hc]
        · rcases h4 : o.SwitchToSecondaryIP s3 with ⟨_ | e4, s4⟩
          · simp [recording, h1, h2, h3, hc, h4]
          · simp [recording, h1, h2, h3, hc, h4]
      · rcases h3 : o.PrimaryIP s2 with ⟨q, s3⟩
        by_cases hc : compareIPs cur q = true
        · simp [recording, h1, h2, h3, hc]
        · rcases h4 : o.SwitchToPrimaryIP s3 with ⟨_ | e4, s4⟩
          · simp [recording, h1, h2, h3, hc, h4]
          · simp [recording, h1, h2, h3, hc, h4]
    · simp [recording, h1, h2]
  · simp [recording, h1]

/-! ### The parser returns 16 bytes -/

theorem parseIPv4FieldsLoop_length (s : List Char) :
    ∀ (prev : Option Char) (val pos digLen : Nat) (fields r : List Nat),
      parseIPv4FieldsLoop s prev val pos digLen fields = some r → r.length = fields.length := by
  induction s with
  | nil =>
    intro prev val pos digLen fields r h
    simp only [parseIPv4FieldsLoop] at h
    split at h
    · simp at h
    · simp only [Option.some.injEq] at h
      rw [← h, List.length_set]
  | cons c rest ih =>
    intro prev val pos digLen fields r h
    simp only [parseIPv4FieldsLoop] at h
    split at h
    · split at h
      · simp at h
      · split at h
        · simp at h
        · exact ih _ _ _ _ _ _ h
    · split at h
      · split at h
        · simp at h
        · split at h
          · simp at h
          · rw [ih _ _ _ _ _ _ h, List.length_set]
      · simp at h

theorem parseIPv4Fields_length (s : List Char) (f : List Nat)
    (h : parseIPv4Fields s = some f) : f.length = 4 := by
  have := parseIPv4FieldsLoop_length s none 0 0 0 [0, 0, 0, 0] f h
  simpa using this

theorem putFields_length (ip : List Nat) (i : Nat) (f : List Nat) :
    (putFields ip i f).length = ip.length := by
  simp [putFields]

theorem parseIPv6Loop_length (n : Nat) :
    ∀ (i : Nat) (s : List Char) (ellipsis : Int) (ip : List Nat)
      (i2 : Nat) (s2 : List Char) (e2 : Int) (ip2 : List Nat),
      parseIPv6Loop n i s ellipsis ip = some (i2, s2, e2, ip2) → ip2.length = ip.length := by
  induction n with
  | zero =>
    intro i s ellipsis ip i2 s2 e2 ip2 h
    simp only [parseIPv6Loop, Option.some.injEq, Prod.mk.injEq] at h
    rw [← h.2.2.2]
  | succ n ih =>
    intro i s ellipsis ip i2 s2 e2 ip2 h
    simp only [parseIPv6Loop] at h
    split at h
    · simp only [Option.some.injEq, Prod.mk.injEq] at h
      rw [← h.2.2.2]
    · split at h
      · simp at h
      · split at h
        · simp at h
        · split at h
          · split at h
            · simp at h
            · split at h
              · simp at h
              · split at h
                · simp at h
                · simp only [Option.some.injEq, Prod.mk.injEq] at h
                  rw [← h.2.2.2, putFields_length]
          · split at h
            · simp only [Option.some.injEq, Prod.mk.injEq] at h
              rw [← h.2.2.2]; simp
            · split at h
              · simp at h
              · split at h
                · simp at h
                · split at h
                  · split at h
                    · simp at h
                    · split at h
                      · simp only [Option.some.injEq, Prod.mk.injEq] at h
                        rw [← h.2.2.2]; simp
                      · rw [ih _ _ _ _ _ _ _ _ h]; simp
                  · rw [ih _ _ _ _ _ _ _ _ h]; simp

theorem foldl_set_length {α β : Type} (l : List β) (g : List α → β → Nat) (v : List α → β → α) :
    ∀ ip : List α, (l.foldl (fun acc k => acc.set (g acc k) (v acc k)) ip).length = ip.length := by
  induction l with
  | nil => intro ip; rfl
  | cons k l ih => intro ip; simp only [List.foldl_cons]; rw [ih, List.length_set]

theorem expandEllipsis_length (ip : List Nat) (i ellipsis : Nat) :
    (expandEllipsis ip i ellipsis).length = ip.length := by
  unfold expandEllipsis
  simp only []
  rw [foldl_set_length _ (fun _ k => ellipsis + k) (fun _ _ => 0),
    foldl_set_length _ (fun _ k => i - 1 - k + (16 - i)) (fun acc k => acc.getD (i - 1 - k) 0)]

theorem parseIPv6_length (inp : List Char) (ip zone) (h : parseIPv6 inp = some (ip, zone)) :
    ip.length = 16 := by
  unfold parseIPv6 at h
  simp only [] at h
  repeat' split at h
  all_goals first
    | (simp at h; done)
    | (simp only [Option.some.injEq, Prod.mk.injEq] at h
       rw [← h.1]; simp)
    | (have hlen := parseIPv6Loop_length _ _ _ _ _ _ _ _ _ ‹parseIPv6Loop _ _ _ _ _ = some _›
       simp only [Option.some.injEq, Prod.mk.injEq] at h
       rw [← h.1]
       first
         | (rw [expandEllipsis_length, hlen]; simp)
         | (rw [hlen]; simp))

theorem ParseAddrScan_length (s : List Char) :
    ∀ (t : List Char) (ip zone), ParseAddrScan s t = some (ip, zone) → ip.length = 16 := by
  intro t
  induction t with
  | nil => intro ip zone h; simp [ParseAddrScan] at h
  | cons c rest ih =>
    intro ip zone h
    simp only [ParseAddrScan] at h
    split at h
    · unfold parseIPv4 at h
      split at h
      · simp at h
      · rename_i f hf
        simp only [Option.some.injEq, Prod.mk.injEq] at h
        rw [← h.1]
        simp [parseIPv4Fields_length _ _ hf]
    · split at h
      · exact parseIPv6_length _ _ _ h
      · split at h
        · simp at h
        · exact ih _ _ h

/-- The iteration count of `parseIPv6Loop` never cuts the loop short: once it
covers the groups still missing up to `i = 16`, any larger count gives the same result. -/
theorem parseIPv6Loop_fuel (n : Nat) :
    ∀ (k i : Nat) (s : List Char) (ellipsis : Int) (ip : List Nat), 16 ≤ i + 2 * n →
      parseIPv6Loop (n + k) i s ellipsis ip = parseIPv6Loop n i s ellipsis ip := by
  induction n with
  | zero =>
    intro k i s ellipsis ip h
    cases k with
    | zero => rfl
    | succ k =>
      have hi : ¬ i < 16 := by omega
      simp [parseIPv6Loop, hi]
  | succ n ih =>
    intro k i s ellipsis ip h
    have ih2 : ∀ (s : List Char) (ellipsis : Int) (ip : List Nat),
        parseIPv6Loop (n + k) (i + 2) s ellipsis ip = parseIPv6Loop n (i + 2) s ellipsis ip :=
      fun s ellipsis ip => ih k (i + 2) s ellipsis ip (by omega)
    rw [show n + 1 + k = (n + k) + 1 by omega]
    simp only [parseIPv6Loop, ih2]

/-- Every address `net.ParseIP` returns is in 16-byte form. -/
theorem ParseIP_length (s : String) (ip : IP) (h : ParseIP s = some ip) : ip.length = 16 := by
  unfold ParseIP at h
  split at h
  · simp at h
  · rename_i ip1 zone hp
    split at h
    · simp at h
    · simp only [Option.some.injEq] at h
      rw [← h]
      exact ParseAddrScan_length _ _ _ _ hp

/-- On two addresses of the same length `IP.Equal` is equality of the bytes. -/
theorem IP_Equal_of_length (a b : IP) (h : a.length = b.length) :
    IP.Equal a b = true ↔ a = b := by
  simp [IP.Equal, h]

/-- The function `compareIPs` answers true exactly when both strings parse and
the two parsed addresses are the same. -/
theorem compareIPs_iff (ip1 ip2 : String) :
    compareIPs ip1 ip2 = true ↔ ∃ a, ParseIP ip1 = some a ∧ ParseIP ip2 = some a := by
  unfold compareIPs
  simp only []
  cases h1 : ParseIP ip1 with
  | none => simp
  | some a1 =>
    cases h2 : ParseIP ip2 with
    | none => simp
    | some a2 =>
      simp only []
      rw [IP_Equal_of_length a1 a2 (by rw [ParseIP_length _ _ h1, ParseIP_length _ _ h2])]
      simp [eq_comm]

/-! ### The calls of `eval`, path by path -/

theorem calls_health_error {σ : Type} (o : Gslb σ) (s0 s1 : σ) (healthy : Bool) (e : GoError)
    (hh : o.CheckPrimaryHealth s0 = ((healthy, some e), s1)) :
    calls o s0 = [Event.CheckPrimaryHealth healthy (some e)] := by
  simp [calls, eval, recording, hh]

theorem calls_read_error {σ : Type} (o : Gslb σ) (s0 s1 s2 : σ) (healthy : Bool) (rec : String)
    (e : GoError)
    (hh : o.CheckPrimaryHealth s0 = ((healthy, none), s1))
    (hg : o.GetCurrentIP s1 = ((rec, some e), s2)) :
    calls o s0 = [Event.CheckPrimaryHealth healthy none, Event.GetCurrentIP rec (some e)] := by
  simp [calls, eval, recording, hh, hg]

theorem calls_healthy_keep {σ : Type} (o : Gslb σ) (s0 s1 s2 : σ) (rec : String)
    (hh : o.CheckPrimaryHealth s0 = ((true, none), s1))
    (hg : o.GetCurrentIP s1 = ((rec, none), s2))
    (hc : compareIPs rec (o.PrimaryIP s2).1 = true) :
    calls o s0 = [Event.CheckPrimaryHealth true none, Event.GetCurrentIP rec none,
      Event.PrimaryIP (o.PrimaryIP s2).1] := by
  simp [calls, eval, recording, hh, hg, hc]

theorem calls_healthy_switch {σ : Type} (o : Gslb σ) (s0 s1 s2 : σ) (rec : String)
    (hh : o.CheckPrimaryHealth s0 = ((true, none), s1))
    (hg : o.GetCurrentIP s1 = ((rec, none), s2))
    (hc : compareIPs rec (o.PrimaryIP s2).1 = false) :
    calls o s0 = [Event.CheckPrimaryHealth true none, Event.GetCurrentIP rec none,
      Event.PrimaryIP (o.PrimaryIP s2).1,
      Event.SwitchToPrimaryIP (o.SwitchToPrimaryIP (o.PrimaryIP s2).2).1] ++
      (match (o.SwitchToPrimaryIP (o.PrimaryIP s2).2).1 with
        | some _ => []
        | none => [Event.PrimaryIP (o.PrimaryIP (o.SwitchToPrimaryIP (o.PrimaryIP s2).2).2).1]) := by
  rcases h4 : o.SwitchToPrimaryIP (o.PrimaryIP s2).2 with ⟨_ | e4, s4⟩ <;>
    simp [calls, eval, recording, hh, hg, hc, h4]

theorem calls_unhealthy_keep {σ : Type} (o : Gslb σ) (s0 s1 s2 : σ) (rec : String)
    (hh : o.CheckPrimaryHealth s0 = ((false, none), s1))
    (hg : o.GetCurrentIP s1 = ((rec, none), s2))
    (hc : compareIPs rec (o.SecondaryIP s2).1 = true) :
    calls o s0 = [Event.CheckPrimaryHealth false none, Event.GetCurrentIP rec none,
      Event.SecondaryIP (o.SecondaryIP s2).1] := by
  simp [calls, eval, recording, hh, hg, hc]

theorem calls_unhealthy_switch {σ : Type} (o : Gslb σ) (s0 s1 s2 : σ) (rec : String)
    (hh : o.CheckPrimaryHealth s0 = ((false, none), s1))
    (hg : o.GetCurrentIP s1 = ((rec, none), s2))
    (hc : compareIPs rec (o.SecondaryIP s2).1 = false) :
    calls o s0 = [Event.CheckPrimaryHealth false none, Event.GetCurrentIP rec none,
      Event.SecondaryIP (o.SecondaryIP s2).1,
      Event.SwitchToSecondaryIP (o.SwitchToSecondaryIP (o.SecondaryIP s2).2).1] ++
      (match (o.SwitchToSecondaryIP (o.SecondaryIP s2).2).1 with
        | some _ => []
        | none =>
          [Event.SecondaryIP (o.SecondaryIP (o.SwitchToSecondaryIP (o.SecondaryIP s2).2).2).1]) := by
  rcases h4 : o.SwitchToSecondaryIP (o.SecondaryIP s2).2 with ⟨_ | e4, s4⟩ <;>
    simp [calls, eval, recording, hh, hg, hc, h4]

theorem compareIPs_eq_false_iff (ip1 ip2 : String) :
    compareIPs ip1 ip2 = false ↔ ¬ ∃ a, ParseIP ip1 = some a ∧ ParseIP ip2 = some a := by
  rw [← compareIPs_iff]; simp

/-! ### Claims about `eval` -/

/-- C1: on the in-memory provider of the test, for every health verdict, every
starting record value and every pair of configured IPs, `eval` returns nil and
the provider's current IP afterwards is the desired target's address (the
primary IP when the verdict was healthy, else the secondary IP): the identical
string, or a string `compareIPs` judges equal to it. -/
theorem eval_mock_ends_at_target (m : mockGslb) :
    (eval mockGslb.provider m).1 = none ∧
    ((eval mockGslb.provider m).2.currentIP
        = (if m.IsPrimaryUp then m.primaryIPval else m.secondaryIPval) ∨
      compareIPs (eval mockGslb.provider m).2.currentIP
        (if m.IsPrimaryUp then m.primaryIPval else m.secondaryIPval) = true) := by
  rcases m with ⟨p, q, up, cur⟩
  cases up
  · by_cases hc : compareIPs cur q = true <;> simp [eval, mockGslb.provider, hc]
  · by_cases hc : compareIPs cur p = true <;> simp [eval, mockGslb.provider, hc]

/-- C2: for every provider, when the health check reports healthy without error
and `GetCurrentIP` returns without error an IP that is not the primary IP (the
two strings do not parse to one address), `eval` calls `SwitchToPrimaryIP`
exactly once and `SwitchToSecondaryIP` not at all. -/
theorem eval_healthy_switches_to_primary {σ : Type} (o : Gslb σ) (s0 s1 s2 : σ) (rec : String)
    (hh : o.CheckPrimaryHealth s0 = ((true, none), s1))
    (hg : o.GetCurrentIP s1 = ((rec, none), s2))
    (hne : ¬ ∃ a, ParseIP rec = some a ∧ ParseIP (o.PrimaryIP s2).1 = some a) :
    (calls o s0).countP Event.isSwitchToPrimaryIP = 1 ∧
    (calls o s0).countP Event.isSwitchToSecondaryIP = 0 := by
  have hc := (compareIPs_eq_false_iff _ _).mpr hne
  rw [calls_healthy_switch o s0 s1 s2 rec hh hg hc]
  cases (o.SwitchToPrimaryIP (o.PrimaryIP s2).2).1 <;>
    simp [List.countP_cons, Event.isSwitchToPrimaryIP, Event.isSwitchToSecondaryIP]

/-- Witness of C2: the in-memory provider at the secondary IP with a healthy primary. -/
theorem eval_healthy_switches_to_primary_witness :
    mockAtSecondary.currentIP ≠ mockAtSecondary.primaryIPval ∧
    (calls mockGslb.provider mockAtSecondary).countP Event.isSwitchToPrimaryIP = 1 ∧
    (calls mockGslb.provider mockAtSecondary).countP Event.isSwitchToSecondaryIP = 0 :=
  ⟨by decide,
    eval_healthy_switches_to_primary mockGslb.provider mockAtSecondary mockAtSecondary
      mockAtSecondary "20.0.2.2" rfl rfl ((compareIPs_eq_false_iff _ _).mp (by decide))⟩

/-- C3: for every provider, when the health check reports unhealthy without
error and `GetCurrentIP` returns without error an IP that is not the secondary
IP (the two strings do not parse to one address), `eval` calls
`SwitchToSecondaryIP` exactly once and `SwitchToPrimaryIP` not at all. -/
theorem eval_unhealthy_switches_to_secondary {σ : Type} (o : Gslb σ) (s0 s1 s2 : σ) (rec : String)
    (hh : o.CheckPrimaryHealth s0 = ((false, none), s1))
    (hg : o.GetCurrentIP s1 = ((rec, none), s2))
    (hne : ¬ ∃ a, ParseIP rec = some a ∧ ParseIP (o.SecondaryIP s2).1 = some a) :
    (calls o s0).countP Event.isSwitchToSecondaryIP = 1 ∧
    (calls o s0).countP Event.isSwitchToPrimaryIP = 0 := by
  have hc := (compareIPs_eq_false_iff _ _).mpr hne
  rw [calls_unhealthy_switch o s0 s1 s2 rec hh hg hc]
  cases (o.SwitchToSecondaryIP (o.SecondaryIP s2).2).1 <;>
    simp [List.countP_cons, Event.isSwitchToPrimaryIP, Event.isSwitchToSecondaryIP]

/-- Witness of C3: the in-memory provider at the primary IP with the primary down. -/
theorem eval_unhealthy_switches_to_secondary_witness :
    mockPrimaryDown.currentIP ≠ mockPrimaryDown.secondaryIPval ∧
    (calls mockGslb.provider mockPrimaryDown).countP Event.isSwitchToSecondaryIP = 1 ∧
    (calls mockGslb.provider mockPrimaryDown).countP Event.isSwitchToPrimaryIP = 0 :=
  ⟨by decide,
    eval_unhealthy_switches_to_secondary mockGslb.provider mockPrimaryDown mockPrimaryDown
      mockPrimaryDown "10.0.1.1" rfl rfl ((compareIPs_eq_false_iff _ _).mp (by decide))⟩

/-- C4, as stated, fails: the record string equals the primary IP string, the
verdict is healthy, and `eval` still issues a write, because the string does
not parse as an IP address. -/
theorem eval_writes_on_equal_unparsable_strings :
    mockHostName.currentIP = mockHostName.primaryIPval ∧
    mockHostName.IsPrimaryUp = true ∧
    writes mockGslb.provider mockHostName = [Event.SwitchToPrimaryIP none] := by
  decide

/-- C4, amended: for every provider and every health verdict, if the string
`GetCurrentIP` returns equals the desired target's IP string (primary when
healthy, secondary when unhealthy) and that string parses as an IP address,
`eval` issues no provider write. -/
theorem eval_no_write_at_target {σ : Type} (o : Gslb σ) (s0 s1 s2 : σ) (healthy : Bool)
    (rec : String)
    (hh : o.CheckPrimaryHealth s0 = ((healthy, none), s1))
    (hg : o.GetCurrentIP s1 = ((rec, none), s2))
    (heq : rec = if healthy then (o.PrimaryIP s2).1 else (o.SecondaryIP s2).1)
    (hp : ParseIP rec ≠ none) :
    writes o s0 = [] := by
  obtain ⟨a, ha⟩ := Option.ne_none_iff_exists'.mp hp
  cases healthy
  · simp only [Bool.false_eq_true, if_false] at heq
    have hc : compareIPs rec (o.SecondaryIP s2).1 = true :=
      (compareIPs_iff _ _).mpr ⟨a, ha, heq ▸ ha⟩
    rw [writes, calls_unhealthy_keep o s0 s1 s2 rec hh hg hc]
    rfl
  · simp only [if_true] at heq
    have hc : compareIPs rec (o.PrimaryIP s2).1 = true :=
      (compareIPs_iff _ _).mpr ⟨a, ha, heq ▸ ha⟩
    rw [writes, calls_healthy_keep o s0 s1 s2 rec hh hg hc]
    rfl

/-- Witness of C4, amended: the provider of the test in its initial state. -/
theorem eval_no_write_at_target_witness :
    newMockGslb.currentIP = newMockGslb.primaryIPval ∧ writes mockGslb.provider newMockGslb = [] :=
  ⟨by decide,
    eval_no_write_at_target mockGslb.provider newMockGslb newMockGslb newMockGslb true "10.0.1.1"
      rfl rfl rfl (by decide)⟩

/-- C5: `compareIPs a b` is true exactly when both strings parse as IP addresses
and the parsed addresses are the same, whatever their spelling; the spellings
`2001:0DB8::1` and `2001:db8::1` compare equal, and with the first as current IP,
the second as primary IP and a healthy verdict `eval` issues no switch. -/
theorem compareIPs_semantic {σ : Type} (o : Gslb σ) (s0 s1 s2 : σ)
    (hh : o.CheckPrimaryHealth s0 = ((true, none), s1))
    (hg : o.GetCurrentIP s1 = (("2001:0DB8::1", none), s2))
    (hp : (o.PrimaryIP s2).1 = "2001:db8::1") :
    (∀ a b : String, compareIPs a b = true ↔ ∃ x, ParseIP a = some x ∧ ParseIP b = some x) ∧
    compareIPs "2001:0DB8::1" "2001:db8::1" = true ∧
    writes o s0 = [] := by
  have hc : compareIPs "2001:0DB8::1" "2001:db8::1" = true := by decide
  refine ⟨compareIPs_iff, hc, ?_⟩
  rw [writes, calls_healthy_keep o s0 s1 s2 _ hh hg (by rw [hp]; exact hc)]
  rfl

/-- Witness of C5: the in-memory provider holding the other spelling. -/
theorem compareIPs_semantic_witness :
    mockOtherSpelling.currentIP ≠ mockOtherSpelling.primaryIPval ∧
    writes mockGslb.provider mockOtherSpelling = [] :=
  ⟨by decide,
    (compareIPs_semantic mockGslb.provider mockOtherSpelling mockOtherSpelling mockOtherSpelling
      rfl rfl rfl).2.2⟩

/-- C6: for every provider and every health verdict, when the string
`GetCurrentIP` returns or the desired target's IP string does not parse as an IP
address, `compareIPs` returns false and the only write `eval` issues is the
switch to the desired target (`SwitchToPrimaryIP` when healthy,
`SwitchToSecondaryIP` when unhealthy); the two strings may be identical. -/
theorem eval_unparsable_forces_switch {σ : Type} (o : Gslb σ) (s0 s1 s2 : σ) (healthy : Bool)
    (rec : String)
    (hh : o.CheckPrimaryHealth s0 = ((healthy, none), s1))
    (hg : o.GetCurrentIP s1 = ((rec, none), s2))
    (hbad : ParseIP rec = none ∨
      ParseIP (if healthy then (o.PrimaryIP s2).1 else (o.SecondaryIP s2).1) = none) :
    compareIPs rec (if healthy then (o.PrimaryIP s2).1 else (o.SecondaryIP s2).1) = false ∧
    writes o s0 =
      [if healthy then Event.SwitchToPrimaryIP (o.SwitchToPrimaryIP (o.PrimaryIP s2).2).1
        else Event.SwitchToSecondaryIP (o.SwitchToSecondaryIP (o.SecondaryIP s2).2).1] := by
  have hc : compareIPs rec (if healthy then (o.PrimaryIP s2).1 else (o.SecondaryIP s2).1) = false := by
    rw [compareIPs_eq_false_iff]
    rintro ⟨a, h1, h2⟩
    rcases hbad with h | h
    · rw [h] at h1; cases h1
    · rw [h] at h2; cases h2
  refine ⟨hc, ?_⟩
  cases healthy
  · simp only [Bool.false_eq_true, if_false] at hc ⊢
    rw [writes, calls_unhealthy_switch o s0 s1 s2 rec hh hg hc]
    cases (o.SwitchToSecondaryIP (o.SecondaryIP s2).2).1 <;>
      simp [List.filter, Event.isWrite, Event.isSwitchToPrimaryIP, Event.isSwitchToSecondaryIP]
  · simp only [if_true] at hc ⊢
    rw [writes, calls_healthy_switch o s0 s1 s2 rec hh hg hc]
    cases (o.SwitchToPrimaryIP (o.PrimaryIP s2).2).1 <;>
      simp [List.filter, Event.isWrite, Event.isSwitchToPrimaryIP, Event.isSwitchToSecondaryIP]

/-- Witness of C6: the record and the primary IP hold the same host name. -/
theorem eval_unparsable_forces_switch_witness :
    mockHostName.currentIP = mockHostName.primaryIPval ∧
    compareIPs "primary.example.com" "primary.example.com" = false ∧
    writes mockGslb.provider mockHostName = [Event.SwitchToPrimaryIP none] :=
  ⟨by decide,
    eval_unparsable_forces_switch mockGslb.provider mockHostName mockHostName mockHostName true
      "primary.example.com" rfl rfl (Or.inl (by decide))⟩

/-- C8: for every provider and every health verdict, when `GetCurrentIP` returns
an error `eval` returns an error that wraps that same error, and it issues no
write (neither `SwitchToPrimaryIP` nor `SwitchToSecondaryIP`). -/
theorem eval_read_error {σ : Type} (o : Gslb σ) (s0 s1 s2 : σ) (healthy : Bool) (rec : String)
    (e : GoError)
    (hh : o.CheckPrimaryHealth s0 = ((healthy, none), s1))
    (hg : o.GetCurrentIP s1 = ((rec, some e), s2)) :
    (eval o s0).1 = some (Errorf "getting GSLB record IP: " e) ∧
    (Errorf "getting GSLB record IP: " e).Unwrap = some e ∧
    writes o s0 = [] := by
  refine ⟨by simp [eval, hh, hg], rfl, ?_⟩
  rw [writes, calls_read_error o s0 s1 s2 healthy rec e hh hg]
  rfl

/-- Witness of C8: a healthy primary and a failing read. -/
theorem eval_read_error_witness :
    (eval failingRead mockAtSecondary).1 = some (Errorf "getting GSLB record IP: "
      (GoError.New "host override record has no A or AAAA record selected")) ∧
    writes failingRead mockAtSecondary = [] :=
  have h := eval_read_error failingRead mockAtSecondary mockAtSecondary mockAtSecondary true ""
    (GoError.New "host override record has no A or AAAA record selected") rfl rfl
  ⟨h.1, h.2.2⟩

/-- C9: for every provider, when the health check returns an error `eval`
returns an error wrapping it; the health check is the only provider call (no
`GetCurrentIP`, no switch) and the provider state is the one the health check
left. -/
theorem eval_health_error {σ : Type} (o : Gslb σ) (s0 s1 : σ) (healthy : Bool) (e : GoError)
    (hh : o.CheckPrimaryHealth s0 = ((healthy, some e), s1)) :
    (eval o s0).1 = some (Errorf "checking primary health: " e) ∧
    (Errorf "checking primary health: " e).Unwrap = some e ∧
    calls o s0 = [Event.CheckPrimaryHealth healthy (some e)] ∧
    (calls o s0).countP Event.isGetCurrentIP = 0 ∧
    writes o s0 = [] ∧
    (eval o s0).2 = s1 := by
  have hcalls := calls_health_error o s0 s1 healthy e hh
  refine ⟨by simp [eval, hh], rfl, hcalls, ?_, ?_, by simp [eval, hh]⟩
  · rw [hcalls]; rfl
  · rw [writes, hcalls]; rfl

/-- Witness of C9: a failing health check on a record that would need a switch. -/
theorem eval_health_error_witness :
    calls failingHealth mockAtSecondary =
      [Event.CheckPrimaryHealth false (some (GoError.New "missing protocol scheme"))] ∧
    (eval failingHealth mockAtSecondary).2 = mockAtSecondary :=
  have h := eval_health_error failingHealth mockAtSecondary mockAtSecondary false
    (GoError.New "missing protocol scheme") rfl
  ⟨h.2.2.1, h.2.2.2.2.2⟩

/-- C10: for every provider, failing writes included, one run of `eval` issues
at most one provider write in total (`SwitchToPrimaryIP` plus
`SwitchToSecondaryIP`), so no write is retried; and when the write returns an
error `eval` returns an error wrapping it. -/
theorem eval_at_most_one_write {σ : Type} (o : Gslb σ) (s0 : σ) :
    (writes o s0).length ≤ 1 ∧
    (∀ e : GoError, Event.SwitchToPrimaryIP (some e) ∈ calls o s0 →
      (eval o s0).1 = some (Errorf "updating GSLB record to primary IP: " e) ∧
      (Errorf "updating GSLB record to primary IP: " e).Unwrap = some e) ∧
    (∀ e : GoError, Event.SwitchToSecondaryIP (some e) ∈ calls o s0 →
      (eval o s0).1 = some (Errorf "updating GSLB record to secondary IP: " e) ∧
      (Errorf "updating GSLB record to secondary IP: " e).Unwrap = some e) := by
  rcases hh : o.CheckPrimaryHealth s0 with ⟨⟨healthy, _ | e1⟩, s1⟩
  · rcases hg : o.GetCurrentIP s1 with ⟨⟨rec, _ | e2⟩, s2⟩
    · cases healthy
      · cases hc : compareIPs rec (o.SecondaryIP s2).1
        · rw [writes, calls_unhealthy_switch o s0 s1 s2 rec hh hg hc]
          rcases h4 : o.SwitchToSecondaryIP (o.SecondaryIP s2).2 with ⟨_ | e4, s4⟩
          · simp [List.filter, Event.isWrite, Event.isSwitchToPrimaryIP,
              Event.isSwitchToSecondaryIP]
          · simp [List.filter, Event.isWrite, Event.isSwitchToPrimaryIP,
              Event.isSwitchToSecondaryIP, eval, hh, hg, hc, h4, GoError.Unwrap, Errorf]
        · rw [writes, calls_unhealthy_keep o s0 s1 s2 rec hh hg hc]
          simp [List.filter, Event.isWrite, Event.isSwitchToPrimaryIP,
            Event.isSwitchToSecondaryIP]
      · cases hc : compareIPs rec (o.PrimaryIP s2).1
        · rw [writes, calls_healthy_switch o s0 s1 s2 rec hh hg hc]
          rcases h4 : o.SwitchToPrimaryIP (o.PrimaryIP s2).2 with ⟨_ | e4, s4⟩
          · simp [List.filter, Event.isWrite, Event.isSwitchToPrimaryIP,
              Event.isSwitchToSecondaryIP]
          · simp [List.filter, Event.isWrite, Event.isSwitchToPrimaryIP,
              Event.isSwitchToSecondaryIP, eval, hh, hg, hc, h4, GoError.Unwrap, Errorf]
        · rw [writes, calls_healthy_keep o s0 s1 s2 rec hh hg hc]
          simp [List.filter, Event.isWrite, Event.isSwitchToPrimaryIP,
            Event.isSwitchToSecondaryIP]
    · rw [writes, calls_read_error o s0 s1 s2 healthy rec e2 hh hg]
      simp [List.filter, Event.isWrite, Event.isSwitchToPrimaryIP, Event.isSwitchToSecondaryIP]
  · rw [writes, calls_health_error o s0 s1 healthy e1 hh]
    simp [List.filter, Event.isWrite, Event.isSwitchToPrimaryIP, Event.isSwitchToSecondaryIP]

/-- Witness of C10: a provider whose write fails is written to once, and `eval`
returns the write's error wrapped. -/
theorem eval_at_most_one_write_witness :
    writes failingWrites mockAtSecondary =
      [Event.SwitchToPrimaryIP (some (GoError.New "setHostOverride request failed: 500"))] ∧
    (eval failingWrites mockAtSecondary).1 = some (Errorf "updating GSLB record to primary IP: "
      (GoError.New "setHostOverride request failed: 500")) :=
  ⟨by decide,
    ((eval_at_most_one_write failingWrites mockAtSecondary).2.1
      (GoError.New "setHostOverride request failed: 500") (by decide)).1⟩

theorem compareIPs_of_ParseIP (ip1 ip2 : String) (a b : IP)
    (h1 : ParseIP ip1 = some a) (h2 : ParseIP ip2 = some b) :
    compareIPs ip1 ip2 = decide (a = b) := by
  by_cases hab : a = b
  · subst hab
    simpa using (compareIPs_iff ip1 ip2).mpr ⟨a, h1, h2⟩
  · have : compareIPs ip1 ip2 = false := by
      rw [compareIPs_eq_false_iff]
      rintro ⟨x, hx1, hx2⟩
      rw [h1] at hx1; rw [h2] at hx2
      exact hab ((Option.some.inj hx1).trans (Option.some.inj hx2).symm)
    simpa [hab] using this

theorem runCycles_zipWith (vs : List Bool) :
    ∀ (m : mockGslb) (prev : Bool) (a b : IP),
      ParseIP m.primaryIPval = some a → ParseIP m.secondaryIPval = some b → a ≠ b →
      ParseIP m.currentIP = some (if prev then a else b) →
      runCycles m vs = List.zipWith cycleWrites (prev :: vs) vs := by
  induction vs with
  | nil => intro m prev a b _ _ _ _; rfl
  | cons v vs ih =>
    intro m prev a b hp hs hab hcur
    rcases m with ⟨p, q, up, cur⟩
    simp only at hp hs hcur
    have hba : b ≠ a := fun h => hab h.symm
    simp only [List.zipWith_cons_cons]
    cases prev <;> cases v <;>
      simp only [Bool.false_eq_true, if_false, if_true] at hcur <;>
      simp only [runCycles, eval, recording, mockGslb.provider,
        compareIPs_of_ParseIP _ _ _ _ hcur hp, compareIPs_of_ParseIP _ _ _ _ hcur hs,
        hab, hba, decide_True, decide_False, cycleWrites,
        Bool.not_true, Bool.not_false, if_true, if_false, Bool.false_eq_true, List.nil_append,
        List.cons_append, List.filter, Event.isWrite, Event.isSwitchToPrimaryIP,
        Event.isSwitchToSecondaryIP, Bool.or_false, Bool.or_true, Bool.true_or, Bool.false_or,
        reduceCtorEq, List.cons.injEq, true_and, and_true] <;>
      first
        | exact ih _ _ a b hp hs hab hcur
        | exact ih _ true a b hp hs hab hp
        | exact ih _ false a b hp hs hab hs

/-- C7: on the in-memory provider started at the primary IP, with a primary and a
secondary IP that parse to different addresses, the writes of the cycles of any
verdict sequence are: for cycle i, none when verdict i equals verdict i-1 (the
verdict before the first cycle counting as healthy), else exactly one, the
switch to secondary for an unhealthy verdict and the switch to primary for a
healthy one. So healthy, healthy, healthy gives three cycles without a write,
and healthy, unhealthy, healthy gives no write, switch to secondary, switch to
primary. The record may start at the primary address in any spelling. -/
theorem runCycles_writes (m : mockGslb) (vs : List Bool) (a b : IP)
    (hp : ParseIP m.primaryIPval = some a) (hs : ParseIP m.secondaryIPval = some b)
    (hab : a ≠ b) (hcur : ParseIP m.currentIP = some a) :
    runCycles m vs = List.zipWith cycleWrites (true :: vs) vs ∧
    runCycles m [true, true, true] = [[], [], []] ∧
    runCycles m [true, false, true] =
      [[], [Event.SwitchToSecondaryIP none], [Event.SwitchToPrimaryIP none]] := by
  have key := fun vs => runCycles_zipWith vs m true a b hp hs hab (by simpa using hcur)
  refine ⟨key vs, ?_, ?_⟩
  · rw [key]; rfl
  · rw [key]; rfl

/-- Witness of C7: the provider of the test through a failover that lasts two cycles. -/
theorem runCycles_writes_witness :
    newMockGslb.currentIP = newMockGslb.primaryIPval ∧
    runCycles newMockGslb [true, false, false, true] =
      [[], [Event.SwitchToSecondaryIP none], [], [Event.SwitchToPrimaryIP none]] :=
  ⟨rfl, (runCycles_writes newMockGslb [true, false, false, true]
    [0, 0, 0, 0, 0, 0, 0, 0, 0, 0, 255, 255, 10, 0, 1, 1]
    [0, 0, 0, 0, 0, 0, 0, 0, 0, 0, 255, 255, 20, 0, 2, 2]
    (by decide) (by decide) (by decide) (by decide)).1⟩

/-! ### The health checker on a scripted network -/

/-- One step of the loop of `CheckHealth` on a scripted network, by the outcome
of the attempt. -/
theorem CheckHealthLoop_step (sc : Script) (c : SimpleHTTPChecker) (n attempt : Nat)
    (lastStatus : String) (w : ScriptState) (ha : attempt ≤ maxRetries) :
    CheckHealthLoop sc.env c (n + 1) attempt lastStatus w =
      if (sc.outcome w.attempts).healthy then
        ((true, (sc.outcome w.attempts).detail, none), (sc.env.Get (5 * Second) c.URL w).2)
      else if attempt < maxRetries then
        CheckHealthLoop sc.env c n (attempt + 1) (sc.outcome w.attempts).detail
          (sc.env.Sleep retryDelay (sc.env.Get (5 * Second) c.URL w).2)
      else ((false, (sc.outcome w.attempts).detail, none), (sc.env.Get (5 * Second) c.URL w).2) := by
  have hget : sc.env.Get (5 * Second) c.URL w =
      (sc.outcome w.attempts, (sc.env.Get (5 * Second) c.URL w).2) := rfl
  rw [CheckHealthLoop, if_neg (not_not.mpr ha)]
  generalize (sc.env.Get (5 * Second) c.URL w).2 = w1 at hget ⊢
  rw [hget]
  cases sc.outcome w.attempts with
  | error err => simp [Result.healthy, Result.detail]
  | ok resp =>
    by_cases h2 : resp.StatusCode ≥ 200 ∧ resp.StatusCode < 300
    · simp [Result.healthy, Result.detail, h2]
    · simp only [Result.healthy, Result.detail, h2, if_false, decide_False, Bool.false_eq_true]

/-- The whole run of `CheckHealth` on a scripted network whose URL parses: it
stops at the first healthy outcome among the first three, else after the third. -/
theorem CheckHealth_script (sc : Script) (c : SimpleHTTPChecker) (hp : sc.Parse c.URL = none) :
    c.CheckHealth sc.env ScriptState.init =
      if (sc.outcome 0).healthy then
        ((true, (sc.outcome 0).detail, none),
          { attempts := 1, clock := sc.took 0,
            log := [CheckEvent.Get (5 * Second) c.URL (sc.outcome 0)] })
      else if (sc.outcome 1).healthy then
        ((true, (sc.outcome 1).detail, none),
          { attempts := 2, clock := sc.took 0 + retryDelay + sc.took 1,
            log := [CheckEvent.Get (5 * Second) c.URL (sc.outcome 0), CheckEvent.Sleep retryDelay,
              CheckEvent.Get (5 * Second) c.URL (sc.outcome 1)] })
      else
        (((sc.outcome 2).healthy, (sc.outcome 2).detail, none),
          { attempts := 3, clock := sc.took 0 + retryDelay + sc.took 1 + retryDelay + sc.took 2,
            log := [CheckEvent.Get (5 * Second) c.URL (sc.outcome 0), CheckEvent.Sleep retryDelay,
              CheckEvent.Get (5 * Second) c.URL (sc.outcome 1), CheckEvent.Sleep retryDelay,
              CheckEvent.Get (5 * Second) c.URL (sc.outcome 2)] }) := by
  have hp2 : sc.env.Parse c.URL = none := hp
  unfold SimpleHTTPChecker.CheckHealth
  rw [hp2]
  simp only [maxRetries]
  rw [CheckHealthLoop_step sc c 2 1 "" ScriptState.init (by decide)]
  by_cases h0 : (sc.outcome 0).healthy = true
  · simp [ScriptState.init, Script.env, h0]
  · rw [CheckHealthLoop_step sc c 1 2 _ _ (by decide)]
    by_cases h1 : (sc.outcome 1).healthy = true
    · simp [ScriptState.init, Script.env, h0, h1, maxRetries]
    · rw [CheckHealthLoop_step sc c 0 3 _ _ (by decide)]
      by_cases h2 : (sc.outcome 2).healthy = true
      · simp [ScriptState.init, Script.env, h0, h1, h2, maxRetries]
      · simp [ScriptState.init, Script.env, h0, h1, h2, maxRetries]

/-- The iteration count of `CheckHealthLoop` never cuts the loop short: once it
covers the attempts left up to `maxRetries`, any larger count gives the same result. -/
theorem CheckHealthLoop_fuel {ω : Type} (env : HTTPEnv ω) (c : SimpleHTTPChecker) (n : Nat) :
    ∀ (k attempt : Nat) (lastStatus : String) (w : ω), maxRetries + 1 ≤ attempt + n →
      CheckHealthLoop env c (n + k) attempt lastStatus w =
        CheckHealthLoop env c n attempt lastStatus w := by
  induction n with
  | zero =>
    intro k attempt lastStatus w h
    cases k with
    | zero => rfl
    | succ k =>
      have ha : ¬ attempt ≤ maxRetries := by omega
      simp [CheckHealthLoop, ha]
  | succ n ih =>
    intro k attempt lastStatus w h
    have ih2 : ∀ (lastStatus : String) (w : ω),
        CheckHealthLoop env c (n + k) (attempt + 1) lastStatus w =
          CheckHealthLoop env c n (attempt + 1) lastStatus w :=
      fun lastStatus w => ih k (attempt + 1) lastStatus w (by omega)
    rw [show n + 1 + k = (n + k) + 1 by omega]
    simp only [CheckHealthLoop, ih2]

theorem Result.healthy_eq_false (r : Result (Response Unit))
    (h : ∀ resp, r = Result.ok resp → ¬ (200 ≤ resp.StatusCode ∧ resp.StatusCode < 300)) :
    r.healthy = false := by
  cases r with
  | error err => rfl
  | ok resp => simpa [Result.healthy] using h resp rfl

/-- C11: for every sequence of attempt outcomes, `CheckHealth` makes at most 3
HTTP attempts, each with the 5-second timeout, and waits at most 2 times; the
waits are of the fixed 10-second delay and lie exactly between consecutive
attempts (none before the first or after the last attempt), and every attempt
followed by a wait had failed. So when every attempt takes at most the 5-second
timeout the whole call takes at most 3×5 + 2×10 seconds. -/
theorem CheckHealth_retry_bound (sc : Script) (c : SimpleHTTPChecker)
    (htook : ∀ k, sc.took k ≤ 5 * Second) :
    ((c.CheckHealth sc.env ScriptState.init).2.log.countP CheckEvent.isGet ≤ 3 ∧
      (c.CheckHealth sc.env ScriptState.init).2.attempts ≤ 3) ∧
    (∀ t u r, CheckEvent.Get t u r ∈ (c.CheckHealth sc.env ScriptState.init).2.log →
      t = 5 * Second) ∧
    (c.CheckHealth sc.env ScriptState.init).2.log.countP CheckEvent.isSleep ≤ 2 ∧
    (c.CheckHealth sc.env ScriptState.init).2.log =
      List.intersperse (CheckEvent.Sleep (10 * Second))
        ((c.CheckHealth sc.env ScriptState.init).2.log.filter CheckEvent.isGet) ∧
    (∀ e ∈ ((c.CheckHealth sc.env ScriptState.init).2.log.filter CheckEvent.isGet).dropLast,
      e.isFailedGet = true) ∧
    (c.CheckHealth sc.env ScriptState.init).2.clock ≤ 3 * (5 * Second) + 2 * (10 * Second) := by
  cases hp : sc.Parse c.URL with
  | some err =>
    have hp2 : sc.env.Parse c.URL = some err := hp
    simp [SimpleHTTPChecker.CheckHealth, hp2, ScriptState.init]
  | none =>
    rw [CheckHealth_script sc c hp]
    have t0 := htook 0
    have t1 := htook 1
    have t2 := htook 2
    cases h0 : (sc.outcome 0).healthy with
    | true =>
      simp only [if_true]
      refine ⟨by simp [CheckEvent.isGet], by simp; tauto, by simp [CheckEvent.isSleep],
        by simp [List.filter, CheckEvent.isGet], by simp [List.filter, CheckEvent.isGet], ?_⟩
      simp only [Second] at t0 ⊢; omega
    | false =>
      cases h1 : (sc.outcome 1).healthy with
      | true =>
        simp only [if_true, if_false, Bool.false_eq_true]
        refine ⟨by simp [CheckEvent.isGet], by simp; tauto, by simp [CheckEvent.isSleep],
          by simp [List.filter, CheckEvent.isGet, retryDelay],
          by simp [List.filter, CheckEvent.isGet, CheckEvent.isFailedGet, h0], ?_⟩
        simp only [Second, retryDelay] at t0 t1 ⊢; omega
      | false =>
        simp only [if_false, Bool.false_eq_true]
        refine ⟨by simp [CheckEvent.isGet], by simp; tauto, by simp [CheckEvent.isSleep],
          by simp [List.filter, CheckEvent.isGet, retryDelay],
          by simp [List.filter, CheckEvent.isGet, CheckEvent.isFailedGet, h0, h1], ?_⟩
        simp only [Second, retryDelay] at t0 t1 t2 ⊢; omega

/-- Witness of C11: an unreachable target whose attempts each use up the timeout
takes 3 attempts, 2 waits and exactly 35 seconds. -/
theorem CheckHealth_retry_bound_witness :
    ((NewSimpleHTTPChecker "http://localhost:99999").CheckHealth scriptUnreachable.env
      ScriptState.init).2.clock = 35 * Second ∧
    ((NewSimpleHTTPChecker "http://localhost:99999").CheckHealth scriptUnreachable.env
      ScriptState.init).2.log.countP CheckEvent.isSleep ≤ 2 :=
  ⟨by decide,
    (CheckHealth_retry_bound scriptUnreachable (NewSimpleHTTPChecker "http://localhost:99999")
      (fun _ => Nat.le_refl _)).2.2.1⟩

/-- C12: on a URL that parses, if attempt k (1 ≤ k ≤ 3) is the first attempt
whose response has a status in [200,300), `CheckHealth` returns
(true, that response's status line, nil) after exactly k attempts and k-1
waits: no attempt follows. -/
theorem CheckHealth_early_success (sc : Script) (c : SimpleHTTPChecker) (k : Nat)
    (resp : Response Unit)
    (hp : sc.Parse c.URL = none) (hk1 : 1 ≤ k) (hk3 : k ≤ 3)
    (hk : sc.outcome (k - 1) = Result.ok resp)
    (h2xx : 200 ≤ resp.StatusCode ∧ resp.StatusCode < 300)
    (hfirst : ∀ j, j < k - 1 → ∀ r, sc.outcome j = Result.ok r →
      ¬ (200 ≤ r.StatusCode ∧ r.StatusCode < 300)) :
    (c.CheckHealth sc.env ScriptState.init).1 = (true, resp.Status, none) ∧
    (c.CheckHealth sc.env ScriptState.init).2.attempts = k ∧
    (c.CheckHealth sc.env ScriptState.init).2.log.countP CheckEvent.isGet = k ∧
    (c.CheckHealth sc.env ScriptState.init).2.log.countP CheckEvent.isSleep = k - 1 := by
  have hh : (sc.outcome (k - 1)).healthy = true := by
    rw [hk]; simpa [Result.healthy] using h2xx
  have hd : (sc.outcome (k - 1)).detail = resp.Status := by rw [hk]; rfl
  have hf : ∀ j, j < k - 1 → (sc.outcome j).healthy = false :=
    fun j hj => Result.healthy_eq_false _ (hfirst j hj)
  rw [CheckHealth_script sc c hp]
  obtain rfl | rfl | rfl : k = 1 ∨ k = 2 ∨ k = 3 := by omega
  · simp only [Nat.sub_self] at hh hd
    simp [hh, hd, CheckEvent.isGet, CheckEvent.isSleep]
  · have h0 := hf 0 (by decide)
    simp only [show 2 - 1 = 1 from rfl] at hh hd
    simp [h0, hh, hd, CheckEvent.isGet, CheckEvent.isSleep]
  · have h0 := hf 0 (by decide)
    have h1 := hf 1 (by decide)
    simp only [show 3 - 1 = 2 from rfl] at hh hd
    simp [h0, h1, hh, hd, CheckEvent.isGet, CheckEvent.isSleep]

/-- Witness of C12: the server of the test that answers 503, then 200. -/
theorem CheckHealth_early_success_witness :
    ((NewSimpleHTTPChecker "http://127.0.0.1:8080").CheckHealth scriptSecondAttempt.env
      ScriptState.init).1 = (true, "200 OK", none) ∧
    ((NewSimpleHTTPChecker "http://127.0.0.1:8080").CheckHealth scriptSecondAttempt.env
      ScriptState.init).2.attempts = 2 :=
  have h := CheckHealth_early_success scriptSecondAttempt
    (NewSimpleHTTPChecker "http://127.0.0.1:8080") 2
    { StatusCode := 200, Status := "200 OK", Body := () } rfl (by decide) (by decide) rfl
    (by decide)
    (fun j hj r hr => by
      have hj0 : j = 0 := by omega
      subst hj0
      cases hr
      decide)
  ⟨h.1, h.2.1⟩

/-- C13: on a URL that parses, if none of the 3 attempts yields a status in
[200,300) (each is a transport failure or a response with another status),
`CheckHealth` makes exactly 3 attempts and returns (false, detail, nil), where
detail is the status line or the transport error text of the third attempt. -/
theorem CheckHealth_exhausted (sc : Script) (c : SimpleHTTPChecker)
    (hp : sc.Parse c.URL = none)
    (hnone : ∀ j, j < 3 → ∀ r, sc.outcome j = Result.ok r →
      ¬ (200 ≤ r.StatusCode ∧ r.StatusCode < 300)) :
    (c.CheckHealth sc.env ScriptState.init).1 = (false, (sc.outcome 2).detail, none) ∧
    (∀ r, sc.outcome 2 = Result.ok r → (sc.outcome 2).detail = r.Status) ∧
    (∀ e, sc.outcome 2 = Result.error e → (sc.outcome 2).detail = e.Error) ∧
    (c.CheckHealth sc.env ScriptState.init).2.attempts = 3 ∧
    (c.CheckHealth sc.env ScriptState.init).2.log.countP CheckEvent.isGet = 3 := by
  have h0 := Result.healthy_eq_false _ (hnone 0 (by decide))
  have h1 := Result.healthy_eq_false _ (hnone 1 (by decide))
  have h2 := Result.healthy_eq_false _ (hnone 2 (by decide))
  rw [CheckHealth_script sc c hp]
  refine ⟨by simp [h0, h1, h2], ?_, ?_, by simp [h0, h1], by simp [h0, h1, CheckEvent.isGet]⟩
  · intro r hr; rw [hr]; rfl
  · intro e he; rw [he]; rfl

/-- Witness of C13: the server of the test that always answers 503. -/
theorem CheckHealth_exhausted_witness :
    ((NewSimpleHTTPChecker "http://127.0.0.1:8080").CheckHealth scriptAlways503.env
      ScriptState.init).1 = (false, "503 Service Unavailable", none) ∧
    ((NewSimpleHTTPChecker "http://127.0.0.1:8080").CheckHealth scriptAlways503.env
      ScriptState.init).2.attempts = 3 :=
  have h := CheckHealth_exhausted scriptAlways503 (NewSimpleHTTPChecker "http://127.0.0.1:8080")
    rfl (fun j _ r hr => by cases hr; decide)
  ⟨h.1, h.2.2.2.1⟩

/-- The loop of `CheckHealth` never returns an error. -/
theorem CheckHealthLoop_no_error {ω : Type} (env : HTTPEnv ω) (c : SimpleHTTPChecker) (n : Nat) :
    ∀ (attempt : Nat) (lastStatus : String) (w : ω),
      (CheckHealthLoop env c n attempt lastStatus w).1.2.2 = none := by
  induction n with
  | zero => intro attempt lastStatus w; rfl
  | succ n ih =>
    intro attempt lastStatus w
    simp only [CheckHealthLoop]
    split
    · rfl
    · split
      · split
        · exact ih _ _ _
        · rfl
      · split
        · rfl
        · split
          · exact ih _ _ _
          · rfl

/-- C14: `CheckHealth` returns a non-nil error exactly when `url.Parse` rejects
its URL; it then returns (false, "", err) with the error of `url.Parse` and makes
no HTTP attempt (the network is untouched); for a URL that parses the returned
error is nil whatever the outcomes of the attempts. -/
theorem CheckHealth_error_iff_parse (sc : Script) (c : SimpleHTTPChecker) :
    ((c.CheckHealth sc.env ScriptState.init).1.2.2 ≠ none ↔ sc.Parse c.URL ≠ none) ∧
    (∀ err, sc.Parse c.URL = some err →
      c.CheckHealth sc.env ScriptState.init = ((false, "", some err), ScriptState.init) ∧
      (c.CheckHealth sc.env ScriptState.init).2.attempts = 0 ∧
      (c.CheckHealth sc.env ScriptState.init).2.log = []) ∧
    (sc.Parse c.URL = none → (c.CheckHealth sc.env ScriptState.init).1.2.2 = none) := by
  cases hp : sc.Parse c.URL with
  | some err =>
    have hp2 : sc.env.Parse c.URL = some err := hp
    simp [SimpleHTTPChecker.CheckHealth, hp2, ScriptState.init]
  | none =>
    have hp2 : sc.env.Parse c.URL = none := hp
    simp [SimpleHTTPChecker.CheckHealth, hp2, CheckHealthLoop_no_error]

/-- Witness of C14: the checker of the test "invalid URL returns error". -/
theorem CheckHealth_error_iff_parse_witness :
    (NewSimpleHTTPChecker "://invalid-url").CheckHealth scriptInvalidURL.env ScriptState.init =
      ((false, "", some (GoError.New "missing protocol scheme")), ScriptState.init) :=
  ((CheckHealth_error_iff_parse scriptInvalidURL (NewSimpleHTTPChecker "://invalid-url")).2.1
    (GoError.New "missing protocol scheme") rfl).1

/-! ### The OPNsense provider on the storing backend -/

theorem store_getHostOverride {ω : Type} (o : OpnSenseGslb ω) (st : StoreState) :
    o.getHostOverride (storeBackend o.epHost o.recordUUID) st =
      (Result.ok (StoreState.serve st.host),
        { st with requests := st.requests ++
            [{ Method := "GET",
               URL := o.epHost ++ ("/api/unbound/settings/getHostOverride/" ++ o.recordUUID),
               Body := none, ContentType := "application/json",
               BasicAuth := if o.epAuth != "" then some o.epAuth else none }] }) := by
  simp [OpnSenseGslb.getHostOverride, OpnSenseGslb.doRequest, storeBackend, okResponse]

/-- What `GetCurrentIP` returns on the storing backend, and that it leaves the
stored record and the switches of the backend alone. -/
theorem store_GetCurrentIP {ω : Type} (o : OpnSenseGslb ω) (st : StoreState) :
    (o.GetCurrentIP (storeBackend o.epHost o.recordUUID) st).1 =
      (if st.host.RR = "A" then
        (if st.host.Server = "" then
          ("", some (GoError.New "host override record has A record selected but no server IP set"))
        else (st.host.Server, none))
      else if st.host.RR = "AAAA" then
        (if st.host.Server = "" then
          ("", some (GoError.New
            "host override record has AAAA record selected but no server IP set"))
        else (st.host.Server, none))
      else ("", some (GoError.New "host override record has no A or AAAA record selected"))) ∧
    (o.GetCurrentIP (storeBackend o.epHost o.recordUUID) st).2.host = st.host := by
  rcases st with ⟨⟨en, hn, dom, rr, mxp, mx, ttl, srv, desc⟩, acc, rec, reqs⟩
  simp only [OpnSenseGslb.GetCurrentIP, store_getHostOverride]
  by_cases hA : rr = "A"
  · by_cases hs : srv = "" <;> simp [StoreState.serve, hA, hs]
  · by_cases hB : rr = "AAAA"
    · by_cases hs : srv = "" <;> simp [StoreState.serve, hB, hs]
    · simp [StoreState.serve, hA, hB]

/-- What `switchToIP` does on the storing backend: when it returns nil, which
record is stored afterwards, and that the switches of the backend stay. -/
theorem store_switchToIP {ω : Type} (o : OpnSenseGslb ω) (ip : String) (st : StoreState) :
    ((o.switchToIP (storeBackend o.epHost o.recordUUID) ip st).1 = none ↔
      (st.host.RR = "A" ∨ st.host.RR = "AAAA") ∧ st.acceptSet = true ∧ st.reconfigureOK = true) ∧
    (o.switchToIP (storeBackend o.epHost o.recordUUID) ip st).2.host =
      (if (st.host.RR = "A" ∨ st.host.RR = "AAAA") ∧ st.acceptSet = true then
        { st.host with Server := ip } else st.host) ∧
    (o.switchToIP (storeBackend o.epHost o.recordUUID) ip st).2.acceptSet = st.acceptSet ∧
    (o.switchToIP (storeBackend o.epHost o.recordUUID) ip st).2.reconfigureOK = st.reconfigureOK := by
  rcases st with ⟨⟨en, hn, dom, rr, mxp, mx, ttl, srv, desc⟩, acc, rec, reqs⟩
  by_cases hA : rr = "A"
  · subst hA
    cases acc <;> cases rec <;>
      simp only [OpnSenseGslb.switchToIP, store_getHostOverride] <;>
      simp [StoreState.serve, OpnSenseGslb.doRequest, storeBackend, okResponse,
        OpnSenseGslb.restartUnboundService]
  · by_cases hB : rr = "AAAA"
    · subst hB
      cases acc <;> cases rec <;>
        simp only [OpnSenseGslb.switchToIP, store_getHostOverride] <;>
        simp [StoreState.serve, OpnSenseGslb.doRequest, storeBackend, okResponse,
          OpnSenseGslb.restartUnboundService]
    · simp only [OpnSenseGslb.switchToIP, store_getHostOverride]
      simp [StoreState.serve, hA, hB]

/-- On the storing backend, a `switchToIP` to a non-empty address that returns
nil is followed by a `GetCurrentIP` returning that address. -/
theorem store_switch_then_get {ω : Type} (o : OpnSenseGslb ω) (ip : String) (st : StoreState)
    (hip : ip ≠ "") (hnil : (o.switchToIP (storeBackend o.epHost o.recordUUID) ip st).1 = none) :
    (o.GetCurrentIP (storeBackend o.epHost o.recordUUID)
      (o.switchToIP (storeBackend o.epHost o.recordUUID) ip st).2).1 = (ip, none) := by
  obtain ⟨hrr, hacc, -⟩ := (store_switchToIP o ip st).1.mp hnil
  have hc : (st.host.RR = "A" ∨ st.host.RR = "AAAA") ∧ st.acceptSet = true := ⟨hrr, hacc⟩
  have h2 := (store_switchToIP o ip st).2.1
  rw [if_pos hc] at h2
  rw [(store_GetCurrentIP o _).1, h2]
  rcases hrr with h | h <;> simp [h, hip]

/-- C18: for every host-override record that `getHostOverride` fetched,
`GetCurrentIP` fails when neither the A nor the AAAA option is selected, fails
when one of them is selected and the server address is empty, and otherwise
returns exactly the server address of the record with no error. -/
theorem GetCurrentIP_of_record {ω β B : Type} (env : Backend β B) (o : OpnSenseGslb ω)
    (b b1 : β) (override : unboundGetHostOverrideResponse)
    (hget : o.getHostOverride env b = (Result.ok override, b1)) :
    (override.Host.RR.A.Selected ≠ 1 ∧ override.Host.RR.AAAA.Selected ≠ 1 →
      o.GetCurrentIP env b =
        (("", some (GoError.New "host override record has no A or AAAA record selected")), b1)) ∧
    ((override.Host.RR.A.Selected = 1 ∨ override.Host.RR.AAAA.Selected = 1) ∧
        override.Host.Server = "" →
      ∃ err, o.GetCurrentIP env b = (("", some err), b1)) ∧
    ((override.Host.RR.A.Selected = 1 ∨ override.Host.RR.AAAA.Selected = 1) ∧
        override.Host.Server ≠ "" →
      o.GetCurrentIP env b = ((override.Host.Server, none), b1)) := by
  simp only [OpnSenseGslb.GetCurrentIP, hget]
  refine ⟨?_, ?_, ?_⟩
  · rintro ⟨hA, hB⟩
    simp [hA, hB]
  · rintro ⟨hsel, hs⟩
    by_cases hA : override.Host.RR.A.Selected = 1
    · exact ⟨GoError.New "host override record has A record selected but no server IP set",
        by simp [hA, hs]⟩
    · have hB : override.Host.RR.AAAA.Selected = 1 := hsel.resolve_left hA
      exact ⟨GoError.New "host override record has AAAA record selected but no server IP set",
        by simp [hA, hB, hs]⟩
  · rintro ⟨hsel, hs⟩
    by_cases hA : override.Host.RR.A.Selected = 1
    · simp [hA, hs]
    · have hB : override.Host.RR.AAAA.Selected = 1 := hsel.resolve_left hA
      simp [hA, hB, hs]

/-- Witness of C18: the A record of the test, served by the storing backend. -/
theorem GetCurrentIP_of_record_witness :
    (testProvider.GetCurrentIP testBackend testStore).1 = ("10.0.0.2", none) :=
  congrArg Prod.fst
    ((GetCurrentIP_of_record testBackend testProvider testStore
      (testProvider.getHostOverride testBackend testStore).2 (StoreState.serve testRecord)
      rfl).2.2 ⟨Or.inl rfl, by decide⟩)

/-- C19, as stated, fails: with the empty string configured as secondary IP, on
the storing backend `SwitchToSecondaryIP` returns nil and the `GetCurrentIP`
that follows returns an error, not the configured IP. -/
theorem switch_to_empty_address_then_get_fails :
    (providerNoSecondary.SwitchToSecondaryIP testBackend testStore).1 = none ∧
    (providerNoSecondary.GetCurrentIP testBackend
      (providerNoSecondary.SwitchToSecondaryIP testBackend testStore).2).1 =
      ("", some (GoError.New "host override record has A record selected but no server IP set")) ∧
    (providerNoSecondary.GetCurrentIP testBackend
      (providerNoSecondary.SwitchToSecondaryIP testBackend testStore).2).1 ≠
      (providerNoSecondary.SecondaryIP, none) := by
  decide

/-- C19, amended: against a backend that stores the record posted to
`setHostOverride` and serves it back from `getHostOverride`, whenever
`SwitchToPrimaryIP` (or `SwitchToSecondaryIP`) returns nil and the configured
primary (or secondary) IP is not the empty string, the `GetCurrentIP` that
follows returns that configured IP string with no error. -/
theorem switch_then_GetCurrentIP {ω : Type} (o : OpnSenseGslb ω) (st : StoreState) :
    (o.cfg.PrimaryIP ≠ "" →
      (o.SwitchToPrimaryIP (storeBackend o.epHost o.recordUUID) st).1 = none →
      (o.GetCurrentIP (storeBackend o.epHost o.recordUUID)
        (o.SwitchToPrimaryIP (storeBackend o.epHost o.recordUUID) st).2).1
        = (o.cfg.PrimaryIP, none)) ∧
    (o.cfg.SecondaryIP ≠ "" →
      (o.SwitchToSecondaryIP (storeBackend o.epHost o.recordUUID) st).1 = none →
      (o.GetCurrentIP (storeBackend o.epHost o.recordUUID)
        (o.SwitchToSecondaryIP (storeBackend o.epHost o.recordUUID) st).2).1
        = (o.cfg.SecondaryIP, none)) :=
  ⟨fun hip hnil => store_switch_then_get o o.cfg.PrimaryIP st hip hnil,
    fun hip hnil => store_switch_then_get o o.cfg.SecondaryIP st hip hnil⟩

/-- Witness of C19, amended: the switch of `TestSwitchToPrimaryIP`, then a read. -/
theorem switch_then_GetCurrentIP_witness :
    (testProvider.SwitchToPrimaryIP testBackend testStore).1 = none ∧
    (testProvider.GetCurrentIP testBackend
      (testProvider.SwitchToPrimaryIP testBackend testStore).2).1 = ("10.0.0.1", none) :=
  ⟨by decide, (switch_then_GetCurrentIP testProvider testStore).1 (by decide) (by decide)⟩

/-- C20: against a working backend that stores the posted record, a switch
called when the record already is at the target (an A or AAAA record whose
server is the target IP, which is what `GetCurrentIP` returning the target
means) returns nil and leaves the stored record as it was; and on any such
backend, working or not, calling a switch twice leaves the same stored record
as calling it once. Both hold for `SwitchToPrimaryIP` and `SwitchToSecondaryIP`. -/
theorem switch_idempotent {ω : Type} (o : OpnSenseGslb ω) (st : StoreState)
    (hacc : st.acceptSet = true) (hrec : st.reconfigureOK = true) :
    ((o.GetCurrentIP (storeBackend o.epHost o.recordUUID) st).1 = (o.cfg.PrimaryIP, none) ∨
        ((st.host.RR = "A" ∨ st.host.RR = "AAAA") ∧ st.host.Server = o.cfg.PrimaryIP) →
      (o.SwitchToPrimaryIP (storeBackend o.epHost o.recordUUID) st).1 = none ∧
      (o.SwitchToPrimaryIP (storeBackend o.epHost o.recordUUID) st).2.host = st.host) ∧
    ((o.GetCurrentIP (storeBackend o.epHost o.recordUUID) st).1 = (o.cfg.SecondaryIP, none) ∨
        ((st.host.RR = "A" ∨ st.host.RR = "AAAA") ∧ st.host.Server = o.cfg.SecondaryIP) →
      (o.SwitchToSecondaryIP (storeBackend o.epHost o.recordUUID) st).1 = none ∧
      (o.SwitchToSecondaryIP (storeBackend o.epHost o.recordUUID) st).2.host = st.host) ∧
    (∀ st0 : StoreState,
      (o.SwitchToPrimaryIP (storeBackend o.epHost o.recordUUID)
        (o.SwitchToPrimaryIP (storeBackend o.epHost o.recordUUID) st0).2).2.host =
        (o.SwitchToPrimaryIP (storeBackend o.epHost o.recordUUID) st0).2.host ∧
      (o.SwitchToSecondaryIP (storeBackend o.epHost o.recordUUID)
        (o.SwitchToSecondaryIP (storeBackend o.epHost o.recordUUID) st0).2).2.host =
        (o.SwitchToSecondaryIP (storeBackend o.epHost o.recordUUID) st0).2.host) := by
  have atTarget : ∀ ip : String,
      ((o.GetCurrentIP (storeBackend o.epHost o.recordUUID) st).1 = (ip, none) ∨
        ((st.host.RR = "A" ∨ st.host.RR = "AAAA") ∧ st.host.Server = ip)) →
      (o.switchToIP (storeBackend o.epHost o.recordUUID) ip st).1 = none ∧
      (o.switchToIP (storeBackend o.epHost o.recordUUID) ip st).2.host = st.host := by
    intro ip h
    have hat : (st.host.RR = "A" ∨ st.host.RR = "AAAA") ∧ st.host.Server = ip := by
      rcases h with h | h
      · rw [(store_GetCurrentIP o st).1] at h
        by_cases hA : st.host.RR = "A"
        · by_cases hs : st.host.Server = ""
          · simp [hA, hs] at h
          · simp [hA, hs] at h; exact ⟨Or.inl hA, h⟩
        · by_cases hB : st.host.RR = "AAAA"
          · by_cases hs : st.host.Server = ""
            · simp [hA, hB, hs] at h
            · simp [hA, hB, hs] at h; exact ⟨Or.inr hB, h⟩
          · simp [hA, hB] at h
      · exact h
    have hc : (st.host.RR = "A" ∨ st.host.RR = "AAAA") ∧ st.acceptSet = true := ⟨hat.1, hacc⟩
    refine ⟨(store_switchToIP o ip st).1.mpr ⟨hat.1, hacc, hrec⟩, ?_⟩
    rw [(store_switchToIP o ip st).2.1, if_pos hc, ← hat.2]
  have twice : ∀ (ip : String) (st0 : StoreState),
      (o.switchToIP (storeBackend o.epHost o.recordUUID) ip
        (o.switchToIP (storeBackend o.epHost o.recordUUID) ip st0).2).2.host =
      (o.switchToIP (storeBackend o.epHost o.recordUUID) ip st0).2.host := by
    intro ip st0
    have h1 := (store_switchToIP o ip st0).2
    rw [(store_switchToIP o ip _).2.1, h1.2.1, h1.1]
    by_cases hc : (st0.host.RR = "A" ∨ st0.host.RR = "AAAA") ∧ st0.acceptSet = true
    · simp [hc]
    · simp [hc]
  exact ⟨atTarget _, atTarget _, fun st0 => ⟨twice _ st0, twice _ st0⟩⟩

/-- Witness of C20: the record of the test is at the secondary IP; switching to
the secondary IP returns nil and leaves the record as it was. -/
theorem switch_idempotent_witness :
    (testProvider.GetCurrentIP testBackend testStore).1 = (testProvider.cfg.SecondaryIP, none) ∧
    (testProvider.SwitchToSecondaryIP testBackend testStore).1 = none ∧
    (testProvider.SwitchToSecondaryIP testBackend testStore).2.host = testStore.host :=
  ⟨by decide, (switch_idempotent testProvider testStore rfl rfl).2.1 (Or.inl (by decide))⟩

/-- C15: when the health target is unreachable (the URL parses and every attempt
is a transport failure) no error is raised along the chain: `CheckHealth`
returns (false, detail, nil) with the text of the last transport error,
`OpnSenseGslb.CheckPrimaryHealth` returns (false, nil), and `eval`, once
`GetCurrentIP` has returned the current IP, issues `SwitchToSecondaryIP` as its
only write unless the current IP already is the secondary address, in which
case it issues no write. -/
theorem unreachable_target_switches_to_secondary {β B : Type} (sc : Script)
    (c : SimpleHTTPChecker) (env : Backend β B) (o : OpnSenseGslb ScriptState) (b b1 : β)
    (rec : String)
    (hchk : o.cfg.PrimaryHealthChecker = c.checker sc.env)
    (hp : sc.Parse c.URL = none)
    (hfail : ∀ k, ∃ e, sc.outcome k = Result.error e)
    (hg : o.GetCurrentIP env b = ((rec, none), b1)) :
    (c.CheckHealth sc.env ScriptState.init).1 = (false, (sc.outcome 2).detail, none) ∧
    (o.CheckPrimaryHealth ScriptState.init).1 = (false, none) ∧
    ((¬ ∃ a, ParseIP rec = some a ∧ ParseIP o.cfg.SecondaryIP = some a) →
      writes (o.provider env) (ScriptState.init, b) =
        [Event.SwitchToSecondaryIP (o.SwitchToSecondaryIP env b1).1]) ∧
    ((∃ a, ParseIP rec = some a ∧ ParseIP o.cfg.SecondaryIP = some a) →
      writes (o.provider env) (ScriptState.init, b) = []) := by
  have h1 := (CheckHealth_exhausted sc c hp (fun j _ r hr => by
    obtain ⟨e, he⟩ := hfail j
    rw [he] at hr
    cases hr)).1
  have h1' : c.CheckHealth sc.env ScriptState.init =
      ((false, (sc.outcome 2).detail, none), (c.CheckHealth sc.env ScriptState.init).2) :=
    Prod.ext h1 rfl
  have h2 : o.CheckPrimaryHealth ScriptState.init =
      ((false, none), (c.CheckHealth sc.env ScriptState.init).2) := by
    unfold OpnSenseGslb.CheckPrimaryHealth
    rw [hchk]
    simp only [SimpleHTTPChecker.checker]
    rw [h1']
  have hh : (o.provider env).CheckPrimaryHealth (ScriptState.init, b) =
      ((false, none), ((c.CheckHealth sc.env ScriptState.init).2, b)) := by
    simp [OpnSenseGslb.provider, h2]
  have hg' : (o.provider env).GetCurrentIP ((c.CheckHealth sc.env ScriptState.init).2, b) =
      ((rec, none), ((c.CheckHealth sc.env ScriptState.init).2, b1)) := by
    simp [OpnSenseGslb.provider, hg]
  refine ⟨h1, by rw [h2], ?_, ?_⟩
  · intro hne
    have hc : compareIPs rec ((o.provider env).SecondaryIP
        ((c.CheckHealth sc.env ScriptState.init).2, b1)).1 = false :=
      (compareIPs_eq_false_iff _ _).mpr hne
    rw [writes, calls_unhealthy_switch _ _ _ _ rec hh hg' hc]
    cases hsw : (o.SwitchToSecondaryIP env b1).1 <;>
      simp [OpnSenseGslb.provider, hsw, List.filter, Event.isWrite, Event.isSwitchToPrimaryIP,
        Event.isSwitchToSecondaryIP]
  · intro hsame
    have hc : compareIPs rec ((o.provider env).SecondaryIP
        ((c.CheckHealth sc.env ScriptState.init).2, b1)).1 = true :=
      (compareIPs_iff _ _).mpr hsame
    rw [writes, calls_unhealthy_keep _ _ _ _ rec hh hg' hc]
    rfl

/-- Witness of C15: the unreachable target of the tests, with the record at the primary IP. -/
theorem unreachable_target_switches_to_secondary_witness :
    (unreachableProvider.CheckPrimaryHealth ScriptState.init).1 = (false, none) ∧
    writes (unreachableProvider.provider testBackend) (ScriptState.init, storeAtPrimary) =
      [Event.SwitchToSecondaryIP none] :=
  have h := unreachable_target_switches_to_secondary scriptUnreachable
    (NewSimpleHTTPChecker "http://localhost:99999") testBackend unreachableProvider storeAtPrimary
    (unreachableProvider.GetCurrentIP testBackend storeAtPrimary).2 "10.0.0.1" rfl rfl
    (fun _ => ⟨_, rfl⟩) rfl
  ⟨h.2.1, h.2.2.1 ((compareIPs_eq_false_iff _ _).mp (by decide))⟩

/-! ### The scheduler -/

theorem Run_returns_ctx_err {σ : Type} (world : RunWorld σ) (ctx : Context) (o : Gslb σ)
    (interval : Nat) (n : Nat) :
    ∀ (st : RunState σ) (v : GoError), (Run world ctx o interval n st).1 = some v →
      v = ctx.Err ∧ ∃ t, ctx.cancelAt = some t ∧ t ≤ (Run world ctx o interval n st).2.now := by
  induction n with
  | zero => intro st v h; simp [Run] at h
  | succ n ih =>
    intro st v h
    cases hc : ctx.cancelAt with
    | none =>
      simp only [Run, hc] at h ⊢
      obtain ⟨hv, t, ht, _⟩ := ih _ v h
      rw [hc] at ht
      cases ht
    | some t =>
      simp only [Run, hc] at h ⊢
      split at h
      · rename_i hd
        rw [if_pos hd]
        simp only [Option.some.injEq] at h
        exact ⟨h.symm, t, rfl, le_max_left _ _⟩
      · rename_i hd
        rw [if_neg hd]
        obtain ⟨hv, t2, ht2, hle⟩ := ih _ v h
        rw [hc] at ht2
        exact ⟨hv, t2, ht2, hle⟩

theorem Run_never_cancelled {σ : Type} (world : RunWorld σ) (ctx : Context) (o : Gslb σ)
    (interval : Nat) (hc : ctx.cancelAt = none) (n : Nat) :
    ∀ st : RunState σ, (Run world ctx o interval n st).1 = none ∧
      (Run world ctx o interval n st).2.cycles.length = st.cycles.length + n := by
  induction n with
  | zero => intro st; simp [Run]
  | succ n ih =>
    intro st
    simp only [Run, hc]
    obtain ⟨h1, h2⟩ := ih
      { provider := (eval o st.provider).2, now := st.now + interval + world.took st.provider,
        cycles := st.cycles ++
          [{ start := st.now + interval, took := world.took st.provider,
             result := (eval o st.provider).1 }] }
    refine ⟨h1, ?_⟩
    rw [h2]
    simp only [List.length_append, List.length_singleton]
    omega

theorem Run_returns_after_cancel {σ : Type} (world : RunWorld σ) (ctx : Context) (o : Gslb σ)
    (interval : Nat) (t : Nat) (hc : ctx.cancelAt = some t) (hi : 0 < interval) (n : Nat) :
    ∀ st : RunState σ, t < st.now + (n + 1) * interval →
      (Run world ctx o interval (n + 1) st).1 = some ctx.Err := by
  induction n with
  | zero =>
    intro st h
    have hd : max t st.now < st.now + interval := by
      simp only [Nat.zero_add, Nat.one_mul] at h
      exact max_lt h (by omega)
    simp [Run, hc, hd]
  | succ n ih =>
    intro st h
    rw [Run]
    simp only [hc]
    split
    · rfl
    · apply ih
      simp only []
      have : (n + 1 + 1) * interval = (n + 1) * interval + interval := by ring
      omega

theorem Run_cadence_from {σ : Type} (world : RunWorld σ) (ctx : Context) (o : Gslb σ)
    (interval : Nat) (n : Nat) :
    ∀ st : RunState σ,
      List.Chain' (fun c1 c2 : Cycle => c2.start = c1.start + c1.took + interval) st.cycles →
      (∀ c ∈ st.cycles.getLast?, st.now = c.start + c.took) →
      List.Chain' (fun c1 c2 : Cycle => c2.start = c1.start + c1.took + interval)
        (Run world ctx o interval n st).2.cycles := by
  induction n with
  | zero => intro st h _; simpa [Run] using h
  | succ n ih =>
    intro st h hlast
    have step : List.Chain' (fun c1 c2 : Cycle => c2.start = c1.start + c1.took + interval)
        (Run world ctx o interval n
          { provider := (eval o st.provider).2, now := st.now + interval + world.took st.provider,
            cycles := st.cycles ++
              [{ start := st.now + interval, took := world.took st.provider,
                 result := (eval o st.provider).1 }] }).2.cycles := by
      apply ih
      · simp only []
        rw [List.chain'_append]
        refine ⟨h, List.chain'_singleton _, ?_⟩
        intro x hx y hy
        simp only [List.head?_cons, Option.mem_def, Option.some.injEq] at hy
        subst hy
        simp only []
        rw [hlast x hx]
      · intro c hcm
        simp only [Option.mem_def] at hcm
        rw [List.getLast?_concat] at hcm
        simp only [Option.some.injEq] at hcm
        subst hcm
        rfl
    cases hc : ctx.cancelAt with
    | none => simpa only [Run, hc] using step
    | some t =>
      simp only [Run, hc]
      split
      · exact h
      · exact step

/-- C16: `Run` returns only when the context is cancelled, and what it returns
is `ctx.Err()`: whenever `Run` has returned a value, the context was cancelled
by then and the value is `ctx.Err()`. An error returned by `eval` never makes
`Run` return and never prevents later cycles: with a context that is never
cancelled, for every provider and whatever `eval` returns, after n iterations
`Run` has not returned and has run n more evaluations. Once the context is
cancelled (and the interval is positive) `Run` does return `ctx.Err()`. -/
theorem Run_returns_only_when_cancelled {σ : Type} (world : RunWorld σ) (ctx : Context)
    (o : Gslb σ) (interval : Nat) (n : Nat) (st : RunState σ) :
    (∀ v, (Run world ctx o interval n st).1 = some v →
      v = ctx.Err ∧ ∃ t, ctx.cancelAt = some t ∧ t ≤ (Run world ctx o interval n st).2.now) ∧
    (ctx.cancelAt = none →
      (Run world ctx o interval n st).1 = none ∧
      (Run world ctx o interval n st).2.cycles.length = st.cycles.length + n) ∧
    (∀ t, ctx.cancelAt = some t → 0 < interval → t < st.now + (n + 1) * interval →
      (Run world ctx o interval (n + 1) st).1 = some ctx.Err) :=
  ⟨Run_returns_ctx_err world ctx o interval n st,
    fun hc => Run_never_cancelled world ctx o interval hc n st,
    fun t hc hi ht => Run_returns_after_cancel world ctx o interval t hc hi n st ht⟩

/-- Witness of C16: on a provider whose every evaluation fails, `Run` keeps
cycling while the context is not cancelled, and returns the context's error
once it is. -/
theorem Run_returns_only_when_cancelled_witness :
    ((Run sevenSecondEvals neverCancelled failingWrites (60 * Second) 3
        (RunState.start mockAtSecondary)).1 = none ∧
      (Run sevenSecondEvals neverCancelled failingWrites (60 * Second) 3
        (RunState.start mockAtSecondary)).2.cycles.length = 0 + 3) ∧
    (Run sevenSecondEvals cancelledAt150 failingWrites (60 * Second) (2 + 1)
      (RunState.start mockAtSecondary)).1 = some (GoError.New "context canceled") :=
  ⟨(Run_returns_only_when_cancelled sevenSecondEvals neverCancelled failingWrites (60 * Second) 3
      (RunState.start mockAtSecondary)).2.1 rfl,
    (Run_returns_only_when_cancelled sevenSecondEvals cancelledAt150 failingWrites (60 * Second) 2
      (RunState.start mockAtSecondary)).2.2 (150 * Second) rfl (by decide) (by decide)⟩

/-- C17, as stated, fails: with an interval of 60 seconds and evaluations that
take 7 seconds, the first two evaluations start at 60 s and at 127 s, 67 seconds
apart and not 60. -/
theorem Run_cadence_not_fixed :
    (Run sevenSecondEvals neverCancelled mockGslb.provider (60 * Second) 2
      (RunState.start newMockGslb)).2.cycles.map Cycle.start = [60 * Second, 127 * Second] ∧
    127 * Second - 60 * Second ≠ 60 * Second := by
  decide

/-- C17, amended: `Run` creates its timer anew each time the loop enters the
`select`, so the interval is counted from when the previous evaluation
completed: every evaluation starts at the start of the one before plus the time
that one took plus the interval. The cadence thus depends on how long a cycle
takes. -/
theorem Run_cadence {σ : Type} (world : RunWorld σ) (ctx : Context) (o : Gslb σ)
    (interval : Nat) (n : Nat) (s : σ) :
    List.Chain' (fun c1 c2 : Cycle => c2.start = c1.start + c1.took + interval)
      (Run world ctx o interval n (RunState.start s)).2.cycles :=
  Run_cadence_from world ctx o interval n (RunState.start s) List.chain'_nil
    (fun c hc => by simp [RunState.start] at hc)

/-! ### Finding the record -/

/-- The loop of `getGslbRecordUUID` on one row, by whether the row is considered. -/
theorem getGslbRecordUUIDLoop_cons (host : String) (row : SearchRow) (rest : List SearchRow)
    (uuid : String) :
    (consideredRows host [row] = [] →
      consideredRows host (row :: rest) = consideredRows host rest ∧
      getGslbRecordUUIDLoop host (row :: rest) uuid = getGslbRecordUUIDLoop host rest uuid) ∧
    (consideredRows host [row] ≠ [] →
      consideredRows host (row :: rest) = row :: consideredRows host rest ∧
      getGslbRecordUUIDLoop host (row :: rest) uuid =
        if uuid != "" then
          ("", some (GoError.New ("multiple GSLB records found for hostname " ++ host)))
        else getGslbRecordUUIDLoop host rest row.UUID) := by
  cases hA : HasPrefix row.ResourceRecord "A " <;>
    cases hB : HasPrefix row.ResourceRecord "AAAA " <;>
    cases hm : (row.Hostname == host || row.Hostname ++ "." ++ row.Domain == host) <;>
    simp [consideredRows, getGslbRecordUUIDLoop, List.filter, hA, hB, hm]

/-- The loop of `getGslbRecordUUID` once a record has been found: any further
considered row is one too many. -/
theorem getGslbRecordUUIDLoop_found (host : String) (rows : List SearchRow) :
    ∀ uuid : String, uuid ≠ "" →
      getGslbRecordUUIDLoop host rows uuid =
        if consideredRows host rows = [] then (uuid, none)
        else ("", some (GoError.New ("multiple GSLB records found for hostname " ++ host))) := by
  induction rows with
  | nil => intro uuid hu; simp [getGslbRecordUUIDLoop, consideredRows, hu]
  | cons row rest ih =>
    intro uuid hu
    by_cases hc : consideredRows host [row] = []
    · obtain ⟨h1, h2⟩ := (getGslbRecordUUIDLoop_cons host row rest uuid).1 hc
      rw [h1, h2, ih uuid hu]
    · obtain ⟨h1, h2⟩ := (getGslbRecordUUIDLoop_cons host row rest uuid).2 hc
      rw [h1, h2]
      simp [hu]

/-- The loop of `getGslbRecordUUID` from the start, when the first considered
row has a `uuid` that is not empty: the outcome by the number of considered rows. -/
theorem getGslbRecordUUIDLoop_start (host : String) (rows : List SearchRow)
    (huuid : ∀ r ∈ (consideredRows host rows).head?, r.UUID ≠ "") :
    getGslbRecordUUIDLoop host rows "" =
      match consideredRows host rows with
      | [] => ("", some (GoError.New ("no GSLB record found for hostname " ++ host)))
      | [r] => (r.UUID, none)
      | _ :: _ :: _ =>
        ("", some (GoError.New ("multiple GSLB records found for hostname " ++ host))) := by
  induction rows with
  | nil => simp [getGslbRecordUUIDLoop, consideredRows]
  | cons row rest ih =>
    by_cases hc : consideredRows host [row] = []
    · obtain ⟨h1, h2⟩ := (getGslbRecordUUIDLoop_cons host row rest "").1 hc
      rw [h1] at huuid ⊢
      rw [h2, ih huuid]
    · obtain ⟨h1, h2⟩ := (getGslbRecordUUIDLoop_cons host row rest "").2 hc
      rw [h1] at huuid ⊢
      have hrow : row.UUID ≠ "" := huuid row rfl
      rw [h2, getGslbRecordUUIDLoop_found host rest row.UUID hrow]
      cases hrest : consideredRows host rest with
      | nil => simp
      | cons r2 tl => simp

/-- C21: the code at the failing inputs. A second considered row is meant to be
refused as "multiple GSLB records found", but the loop takes an empty `uuid` for
"nothing found yet": with two considered rows, the first of empty `uuid`,
`NewOpnSenseGslb` succeeds with the `uuid` of the second, while the same two
rows in the other order are refused as multiple; and with exactly one considered
row, of empty `uuid`, it fails with "no GSLB record found". -/
theorem NewOpnSenseGslb_empty_uuid_rows :
    (consideredRows "test-host" rowsEmptyUUID).length = 1 ∧
    (NewOpnSenseGslb (rowsBackend rowsEmptyUUID) "http://127.0.0.1:8080" "" testConfig ()).1.recordUUID
      = Result.error (Errorf "getting GSLB record: "
          (GoError.New "no GSLB record found for hostname test-host")) ∧
    (consideredRows "test-host" rowsEmptyThenA).length = 2 ∧
    (NewOpnSenseGslb (rowsBackend rowsEmptyThenA) "http://127.0.0.1:8080" "" testConfig ()).1.recordUUID
      = Result.ok "uuid-2" ∧
    (consideredRows "test-host" rowsAThenEmpty).length = 2 ∧
    (NewOpnSenseGslb (rowsBackend rowsAThenEmpty) "http://127.0.0.1:8080" "" testConfig ()).1.recordUUID
      = Result.error (Errorf "getting GSLB record: "
          (GoError.New "multiple GSLB records found for hostname test-host")) := by
  decide

/-- Where the code does what is claimed of `NewOpnSenseGslb`: for every list of
rows returned by `searchHostOverride` whose first considered row has a `uuid`
that is not the empty string, only the rows whose `rr` starts with `A ` or
`AAAA ` and whose hostname, or hostname + "." + domain, equals the configured
host count: with exactly one such row it succeeds and `recordUUID` is the `uuid`
of that row; with two or more it fails with a "multiple GSLB records found"
error; with none it fails with a "no GSLB record found" error. -/
theorem NewOpnSenseGslb_by_rows {ω β B : Type} (env : SearchBackend β B) (host auth : String)
    (cfg : GslbConfig ω) (b b1 : β) (resp : Response B) (rows : List SearchRow)
    (hreq : OpnSenseGslb.doRequest env.toBackend
      ({ cfg := cfg, recordUUID := "", epHost := host, epAuth := auth } : OpnSenseGslb ω)
      "POST" "/api/unbound/settings/searchHostOverride/"
      (some (Payload.search { RowCount := 10, SearchPhrase := cfg.Host })) b = (Result.ok resp, b1))
    (hstatus : resp.StatusCode = 200)
    (hdec : env.decodeSearch resp.Body = Result.ok { Rows := rows })
    (huuid : ∀ r ∈ (consideredRows cfg.Host rows).head?, r.UUID ≠ "") :
    (∀ row, consideredRows cfg.Host rows = [row] →
      NewOpnSenseGslb env host auth cfg b =
        (Result.ok { cfg := cfg, recordUUID := row.UUID, epHost := host, epAuth := auth }, b1)) ∧
    (2 ≤ (consideredRows cfg.Host rows).length →
      NewOpnSenseGslb env host auth cfg b =
        (Result.error (Errorf "getting GSLB record: "
          (GoError.New ("multiple GSLB records found for hostname " ++ cfg.Host))), b1)) ∧
    (consideredRows cfg.Host rows = [] →
      NewOpnSenseGslb env host auth cfg b =
        (Result.error (Errorf "getting GSLB record: "
          (GoError.New ("no GSLB record found for hostname " ++ cfg.Host))), b1)) := by
  have hloop := getGslbRecordUUIDLoop_start cfg.Host rows huuid
  have hrun : OpnSenseGslb.getGslbRecordUUID env
      ({ cfg := cfg, recordUUID := "", epHost := host, epAuth := auth } : OpnSenseGslb ω)
      cfg.Host b = (getGslbRecordUUIDLoop cfg.Host rows "", b1) := by
    simp only [OpnSenseGslb.getGslbRecordUUID, hreq, hdec]
    simp [hstatus]
  refine ⟨?_, ?_, ?_⟩
  · intro row hrow
    rw [hrow] at hloop
    simp only [NewOpnSenseGslb, hrun, hloop]
  · intro h2
    cases hc : consideredRows cfg.Host rows with
    | nil => rw [hc] at h2; simp at h2
    | cons r1 tl =>
      cases tl with
      | nil => rw [hc] at h2; simp at h2
      | cons r2 tl2 =>
        rw [hc] at hloop
        simp only [NewOpnSenseGslb, hrun, hloop]
  · intro hnil
    rw [hnil] at hloop
    simp only [NewOpnSenseGslb, hrun, hloop]

/-- The rows of `TestNewOpnSenseGslb_IgnoresNonARecords`: the MX record is not
considered and the provider gets the `uuid` of the A record. -/
theorem NewOpnSenseGslb_by_rows_witness :
    consideredRows "test-host" rowsMxAndA =
      [{ UUID := "a-record", Hostname := "test-host", Domain := "local",
         ResourceRecord := "A (IPv4 address)" }] ∧
    (NewOpnSenseGslb (rowsBackend rowsMxAndA) "http://127.0.0.1:8080" "" testConfig ()).1.recordUUID
      = Result.ok "a-record" :=
  ⟨by decide,
    congrArg (fun r => Result.recordUUID r.1)
      ((NewOpnSenseGslb_by_rows (rowsBackend rowsMxAndA) "http://127.0.0.1:8080" "" testConfig () ()
        { StatusCode := 200, Status := "200 OK", Body := { Rows := rowsMxAndA } } rowsMxAndA
        rfl rfl rfl (by decide)).1
        { UUID := "a-record", Hostname := "test-host", Domain := "local",
          ResourceRecord := "A (IPv4 address)" } (by decide))⟩

/-! ### The requests of `switchToIP` -/

theorem doRequest_ok_NewRequest {ω β B : Type} (env : Backend β B) (o : OpnSenseGslb ω)
    (method url : String) (body : Option Payload) (b b1 : β) (resp : Response B)
    (h : o.doRequest env method url body b = (Result.ok resp, b1)) :
    env.NewRequest method (o.epHost ++ url) = none := by
  unfold OpnSenseGslb.doRequest at h
  cases hn : env.NewRequest method (o.epHost ++ url) with
  | none => rfl
  | some e => rw [hn] at h; simp at h

/-- With the log `doRequest` returns what it returns without, and the log gains
the request, unless `http.NewRequest` failed and nothing was sent. -/
theorem doRequest_logging {ω β B : Type} (env : Backend β B) (o : OpnSenseGslb ω)
    (method url : String) (body : Option Payload) (b : β) (l : List Request) :
    o.doRequest env.logging method url body (b, l) =
      ((o.doRequest env method url body b).1,
        ((o.doRequest env method url body b).2,
          l ++ (if env.NewRequest method (o.epHost ++ url) = none then [o.request method url body]
            else []))) := by
  unfold OpnSenseGslb.doRequest
  cases hn : env.NewRequest method (o.epHost ++ url) with
  | some e => simp [Backend.logging, hn]
  | none =>
    simp only [Backend.logging, hn]
    rcases hd : env.Do (10 * Second)
      { Method := method, URL := o.epHost ++ url, Body := body, ContentType := "application/json",
        BasicAuth := if o.epAuth != "" then some o.epAuth else none } b with ⟨r | e, b1⟩ <;>
      simp [OpnSenseGslb.request]

theorem getHostOverride_logging {ω β B : Type} (env : Backend β B) (o : OpnSenseGslb ω)
    (b : β) (l : List Request) :
    o.getHostOverride env.logging (b, l) =
      ((o.getHostOverride env b).1,
        ((o.getHostOverride env b).2,
          l ++ (if env.NewRequest "GET"
              (o.epHost ++ ("/api/unbound/settings/getHostOverride/" ++ o.recordUUID)) = none
            then [o.getRequest] else []))) := by
  simp only [OpnSenseGslb.getHostOverride, doRequest_logging, OpnSenseGslb.getRequest]
  rcases hd : o.doRequest env "GET" ("/api/unbound/settings/getHostOverride/" ++ o.recordUUID)
    none b with ⟨r | e, b1⟩
  · simp only []
    split
    · rfl
    · cases hdec : env.decodeGet r.Body <;> simp [Backend.logging, hdec]
  · rfl

theorem restartUnboundService_logging {ω β B : Type} (env : Backend β B) (o : OpnSenseGslb ω)
    (b : β) (l : List Request) :
    o.restartUnboundService env.logging (b, l) =
      ((o.restartUnboundService env b).1,
        ((o.restartUnboundService env b).2,
          l ++ (if env.NewRequest "POST" (o.epHost ++ "/api/unbound/service/reconfigure") = none
            then [o.reconfigureRequest] else []))) := by
  simp only [OpnSenseGslb.restartUnboundService, doRequest_logging, OpnSenseGslb.reconfigureRequest]
  rcases hd : o.doRequest env "POST" "/api/unbound/service/reconfigure" none b with ⟨r | e, b1⟩
  · simp only []
    split
    · rfl
    · cases hdec : env.decodeService r.Body with
      | error e => simp [Backend.logging, hdec]
      | ok svc =>
        simp only [Backend.logging, hdec]
        split <;> rfl
  · rfl

theorem getHostOverride_ok_NewRequest {ω β B : Type} (env : Backend β B) (o : OpnSenseGslb ω)
    (b b1 : β) (override : unboundGetHostOverrideResponse)
    (h : o.getHostOverride env b = (Result.ok override, b1)) :
    env.NewRequest "GET" (o.epHost ++ ("/api/unbound/settings/getHostOverride/" ++ o.recordUUID))
      = none := by
  unfold OpnSenseGslb.getHostOverride at h
  rcases hd : o.doRequest env "GET" ("/api/unbound/settings/getHostOverride/" ++ o.recordUUID)
    none b with ⟨r | e, b2⟩
  · exact doRequest_ok_NewRequest env o _ _ _ _ _ _ hd
  · rw [hd] at h; simp at h

theorem switchToIP_get_error {ω β B : Type} (env : Backend β B) (o : OpnSenseGslb ω) (ip : String)
    (b b1 : β) (e : GoError) (hget : o.getHostOverride env b = (Result.error e, b1)) :
    o.switchToIP env ip b = (some (Errorf "getting host override: " e), b1) := by
  simp only [OpnSenseGslb.switchToIP, hget]

theorem switchToIP_not_selected {ω β B : Type} (env : Backend β B) (o : OpnSenseGslb ω)
    (ip : String) (b b1 : β) (override : unboundGetHostOverrideResponse)
    (hget : o.getHostOverride env b = (Result.ok override, b1))
    (hsel : ¬ (override.Host.RR.A.Selected = 1 ∨ override.Host.RR.AAAA.Selected = 1)) :
    o.switchToIP env ip b =
      (some (GoError.New "host override record has no A or AAAA record selected"), b1) := by
  have hA : ¬ override.Host.RR.A.Selected = 1 := fun h => hsel (Or.inl h)
  have hB : ¬ override.Host.RR.AAAA.Selected = 1 := fun h => hsel (Or.inr h)
  simp [OpnSenseGslb.switchToIP, hget, hA, hB]

/-- After a successful read with A or AAAA selected, `switchToIP` posts
`switchPayload override ip` and goes on by the answer. -/
theorem switchToIP_selected {ω β B : Type} (env : Backend β B) (o : OpnSenseGslb ω)
    (ip : String) (b b1 : β) (override : unboundGetHostOverrideResponse)
    (hget : o.getHostOverride env b = (Result.ok override, b1))
    (hsel : override.Host.RR.A.Selected = 1 ∨ override.Host.RR.AAAA.Selected = 1) :
    o.switchToIP env ip b =
      match o.doRequest env "POST" ("/api/unbound/settings/setHostOverride/" ++ o.recordUUID)
          (some (Payload.set (switchPayload override ip))) b1 with
      | (Result.error err, b2) => (some (Errorf "setHostOverride request: " err), b2)
      | (Result.ok resp, b2) =>
        if resp.StatusCode ≠ 200 then
          (some (GoError.New ("setHostOverride request failed: " ++ resp.Status)), b2)
        else
          match env.decodeSet resp.Body with
          | Result.error err => (some (Errorf "decoding setHostOverride response: " err), b2)
          | Result.ok setResp =>
            if setResp.Result ≠ "saved" then
              (some (GoError.New
                ("setHostOverride request failed: unexpected result " ++ setResp.Result)), b2)
            else
              match o.restartUnboundService env b2 with
              | (some err, b3) => (some (Errorf "restarting Unbound service: " err), b3)
              | (none, b3) => (none, b3) := by
  by_cases hA : override.Host.RR.A.Selected = 1
  · simp [OpnSenseGslb.switchToIP, hget, hA, switchPayload]
  · have hB : override.Host.RR.AAAA.Selected = 1 := hsel.resolve_left hA
    simp [OpnSenseGslb.switchToIP, hget, hA, hB, switchPayload]

/-- The read of the logged run, from the read of the plain run. -/
theorem getHostOverride_logging_ok {ω β B : Type} (env : Backend β B) (o : OpnSenseGslb ω)
    (b b1 : β) (override : unboundGetHostOverrideResponse)
    (hget : o.getHostOverride env b = (Result.ok override, b1)) :
    o.getHostOverride env.logging (b, []) = (Result.ok override, (b1, [o.getRequest])) := by
  rw [getHostOverride_logging, hget, getHostOverride_ok_NewRequest env o b b1 override hget]
  simp

/-- The result of `switchToIP` does not depend on the log. -/
theorem switchToIP_logging_result {ω β B : Type} (env : Backend β B) (o : OpnSenseGslb ω)
    (ip : String) (b : β) :
    (o.switchToIP env.logging ip (b, [])).1 = (o.switchToIP env ip b).1 := by
  rcases hget : o.getHostOverride env b with ⟨override | e, b1⟩
  · by_cases hsel : override.Host.RR.A.Selected = 1 ∨ override.Host.RR.AAAA.Selected = 1
    · rw [switchToIP_selected env.logging o ip _ _ override
          (getHostOverride_logging_ok env o b b1 override hget) hsel,
        switchToIP_selected env o ip b b1 override hget hsel, doRequest_logging]
      rcases hd : o.doRequest env "POST"
        ("/api/unbound/settings/setHostOverride/" ++ o.recordUUID)
        (some (Payload.set (switchPayload override ip))) b1 with ⟨r | e, b2⟩
      · simp only []
        split
        · rfl
        · have hdl : env.logging.decodeSet = env.decodeSet := rfl
          rw [hdl]
          cases hdec : env.decodeSet r.Body with
          | error e => rfl
          | ok setResp =>
            simp only []
            split
            · rfl
            · rw [restartUnboundService_logging]
              rcases hr : o.restartUnboundService env b2 with ⟨_ | e3, b3⟩ <;> rfl
      · rfl
    · rw [switchToIP_not_selected env.logging o ip _ _ override
          (getHostOverride_logging_ok env o b b1 override hget) hsel,
        switchToIP_not_selected env o ip b b1 override hget hsel]
  · have hl : o.getHostOverride env.logging (b, []) = (Result.error e, (b1, [] ++
        (if env.NewRequest "GET"
            (o.epHost ++ ("/api/unbound/settings/getHostOverride/" ++ o.recordUUID)) = none
          then [o.getRequest] else []))) := by
      rw [getHostOverride_logging, hget]
    rw [switchToIP_get_error env.logging o ip _ _ e hl, switchToIP_get_error env o ip b b1 e hget]

theorem restartUnboundService_nil_iff {ω β B : Type} (env : Backend β B) (o : OpnSenseGslb ω)
    (b : β) :
    (o.restartUnboundService env b).1 = none ↔
      ∃ resp b1 svc,
        o.doRequest env "POST" "/api/unbound/service/reconfigure" none b = (Result.ok resp, b1) ∧
        resp.StatusCode = 200 ∧ env.decodeService resp.Body = Result.ok svc ∧
        svc.Response = "OK" := by
  unfold OpnSenseGslb.restartUnboundService
  rcases hd : o.doRequest env "POST" "/api/unbound/service/reconfigure" none b with ⟨r | e, b1⟩
  · simp only []
    by_cases hs : r.StatusCode = 200
    · cases hdec : env.decodeService r.Body with
      | error e => simp [hs, hdec]
      | ok svc =>
        by_cases hok : svc.Response = "OK"
        · simp [hs, hdec, hok]
        · simp [hs, hdec, hok]
    · simp [hs]
  · simp

theorem requests_get_error {ω β B : Type} (env : Backend β B) (o : OpnSenseGslb ω) (ip : String)
    (b b1 : β) (e : GoError) (hget : o.getHostOverride env b = (Result.error e, b1)) :
    o.requests env ip b <+: [o.getRequest] := by
  have hl : o.getHostOverride env.logging (b, []) = (Result.error e, (b1, [] ++
      (if env.NewRequest "GET"
          (o.epHost ++ ("/api/unbound/settings/getHostOverride/" ++ o.recordUUID)) = none
        then [o.getRequest] else []))) := by
    rw [getHostOverride_logging, hget]
  rw [OpnSenseGslb.requests, switchToIP_get_error env.logging o ip _ _ e hl]
  split <;> simp

theorem requests_not_selected {ω β B : Type} (env : Backend β B) (o : OpnSenseGslb ω)
    (ip : String) (b b1 : β) (override : unboundGetHostOverrideResponse)
    (hget : o.getHostOverride env b = (Result.ok override, b1))
    (hsel : ¬ (override.Host.RR.A.Selected = 1 ∨ override.Host.RR.AAAA.Selected = 1)) :
    o.requests env ip b = [o.getRequest] := by
  rw [OpnSenseGslb.requests, switchToIP_not_selected env.logging o ip _ _ override
    (getHostOverride_logging_ok env o b b1 override hget) hsel]

/-- The requests of `switchToIP` when the set was saved: get, set, and the
reconfigure request unless `http.NewRequest` refused to build it. -/
theorem requests_set_saved {ω β B : Type} (env : Backend β B) (o : OpnSenseGslb ω)
    (ip : String) (b b1 b2 : β) (override : unboundGetHostOverrideResponse) (resp : Response B)
    (setResp : unboundSetHostOverrideResponse)
    (hget : o.getHostOverride env b = (Result.ok override, b1))
    (hsel : override.Host.RR.A.Selected = 1 ∨ override.Host.RR.AAAA.Selected = 1)
    (hset : o.doRequest env "POST" ("/api/unbound/settings/setHostOverride/" ++ o.recordUUID)
      (some (Payload.set (switchPayload override ip))) b1 = (Result.ok resp, b2))
    (hstatus : resp.StatusCode = 200) (hdec : env.decodeSet resp.Body = Result.ok setResp)
    (hsaved : setResp.Result = "saved") :
    o.requests env ip b =
      [o.getRequest, o.setRequest (switchPayload override ip)] ++
        (if env.NewRequest "POST" (o.epHost ++ "/api/unbound/service/reconfigure") = none
          then [o.reconfigureRequest] else []) ∧
    ((o.switchToIP env ip b).1 = none ↔ (o.restartUnboundService env b2).1 = none) := by
  have hnew := doRequest_ok_NewRequest env o _ _ _ _ _ _ hset
  have hdl : env.logging.decodeSet = env.decodeSet := rfl
  constructor
  · rw [OpnSenseGslb.requests, switchToIP_selected env.logging o ip _ _ override
      (getHostOverride_logging_ok env o b b1 override hget) hsel, doRequest_logging, hset, hnew,
      hdl]
    simp only [hstatus, hdec, hsaved, ne_eq, not_true_eq_false, if_false, if_true]
    rw [restartUnboundService_logging]
    rcases hr : o.restartUnboundService env b2 with ⟨_ | e3, b3⟩ <;>
      simp [OpnSenseGslb.setRequest]
  · rw [switchToIP_selected env o ip b b1 override hget hsel, hset]
    simp only [hstatus, hdec, hsaved, ne_eq, not_true_eq_false, if_false]
    rcases hr : o.restartUnboundService env b2 with ⟨_ | e3, b3⟩ <;> simp

/-- The requests of `switchToIP` when the set was not saved: no reconfigure
request, and an error is returned. -/
theorem requests_set_failed {ω β B : Type} (env : Backend β B) (o : OpnSenseGslb ω)
    (ip : String) (b b1 : β) (override : unboundGetHostOverrideResponse)
    (hget : o.getHostOverride env b = (Result.ok override, b1))
    (hsel : override.Host.RR.A.Selected = 1 ∨ override.Host.RR.AAAA.Selected = 1)
    (hnot : ¬ ∃ resp b2 setResp,
      o.doRequest env "POST" ("/api/unbound/settings/setHostOverride/" ++ o.recordUUID)
        (some (Payload.set (switchPayload override ip))) b1 = (Result.ok resp, b2) ∧
      resp.StatusCode = 200 ∧ env.decodeSet resp.Body = Result.ok setResp ∧
      setResp.Result = "saved") :
    o.requests env ip b =
      [o.getRequest] ++
        (if env.NewRequest "POST"
            (o.epHost ++ ("/api/unbound/settings/setHostOverride/" ++ o.recordUUID)) = none
          then [o.setRequest (switchPayload override ip)] else []) ∧
    (o.switchToIP env ip b).1 ≠ none := by
  have hdl : env.logging.decodeSet = env.decodeSet := rfl
  rw [OpnSenseGslb.requests, switchToIP_selected env.logging o ip _ _ override
    (getHostOverride_logging_ok env o b b1 override hget) hsel, doRequest_logging, hdl,
    switchToIP_selected env o ip b b1 override hget hsel]
  rcases hd : o.doRequest env "POST" ("/api/unbound/settings/setHostOverride/" ++ o.recordUUID)
    (some (Payload.set (switchPayload override ip))) b1 with ⟨r | e, b2⟩
  · by_cases hs : r.StatusCode = 200
    · cases hdec : env.decodeSet r.Body with
      | error e => simp [hs, hdec, OpnSenseGslb.setRequest]
      | ok setResp =>
        have hns : setResp.Result ≠ "saved" := fun h => hnot ⟨r, b2, setResp, hd, hs, hdec, h⟩
        simp [hs, hdec, hns, OpnSenseGslb.setRequest]
    · simp [hs, OpnSenseGslb.setRequest]
  · simp [OpnSenseGslb.setRequest]

/-- C22: `switchToIP` returns nil exactly when the read of the record succeeds
with A or AAAA selected, the `setHostOverride` call answers 200 with result
`saved`, and the `reconfigure` call answers 200 with response `OK`. Its requests
are, in this order, get, set, reconfigure: what it sends is a prefix of these
three, all three on success. It stops at the first failing step: without a
successful read with A or AAAA selected nothing follows the get request, a
reconfigure request is sent only after a set that was saved, and a set that is
answered with another result returns the error "unexpected result" with no
reconfigure request after it. -/
theorem switchToIP_nil_iff_and_order {ω β B : Type} (env : Backend β B) (o : OpnSenseGslb ω)
    (ip : String) (b : β) :
    ((o.switchToIP env ip b).1 = none ↔
      ∃ override b1 resp2 b2 setResp resp3 b3 svc,
        o.getHostOverride env b = (Result.ok override, b1) ∧
        (override.Host.RR.A.Selected = 1 ∨ override.Host.RR.AAAA.Selected = 1) ∧
        o.doRequest env "POST" ("/api/unbound/settings/setHostOverride/" ++ o.recordUUID)
          (some (Payload.set (switchPayload override ip))) b1 = (Result.ok resp2, b2) ∧
        resp2.StatusCode = 200 ∧ env.decodeSet resp2.Body = Result.ok setResp ∧
        setResp.Result = "saved" ∧
        o.doRequest env "POST" "/api/unbound/service/reconfigure" none b2 = (Result.ok resp3, b3) ∧
        resp3.StatusCode = 200 ∧ env.decodeService resp3.Body = Result.ok svc ∧
        svc.Response = "OK") ∧
    (o.switchToIP env.logging ip (b, [])).1 = (o.switchToIP env ip b).1 ∧
    (∃ p, o.requests env ip b <+: [o.getRequest, o.setRequest p, o.reconfigureRequest]) ∧
    ((o.switchToIP env ip b).1 = none →
      ∃ p, o.requests env ip b = [o.getRequest, o.setRequest p, o.reconfigureRequest]) ∧
    ((¬ ∃ override b1, o.getHostOverride env b = (Result.ok override, b1) ∧
        (override.Host.RR.A.Selected = 1 ∨ override.Host.RR.AAAA.Selected = 1)) →
      (o.switchToIP env ip b).1 ≠ none ∧ o.requests env ip b <+: [o.getRequest]) ∧
    (o.reconfigureRequest ∈ o.requests env ip b →
      ∃ override b1 resp2 b2 setResp,
        o.getHostOverride env b = (Result.ok override, b1) ∧
        o.doRequest env "POST" ("/api/unbound/settings/setHostOverride/" ++ o.recordUUID)
          (some (Payload.set (switchPayload override ip))) b1 = (Result.ok resp2, b2) ∧
        resp2.StatusCode = 200 ∧ env.decodeSet resp2.Body = Result.ok setResp ∧
        setResp.Result = "saved") ∧
    (∀ override b1 resp2 b2 setResp,
      o.getHostOverride env b = (Result.ok override, b1) →
      (override.Host.RR.A.Selected = 1 ∨ override.Host.RR.AAAA.Selected = 1) →
      o.doRequest env "POST" ("/api/unbound/settings/setHostOverride/" ++ o.recordUUID)
        (some (Payload.set (switchPayload override ip))) b1 = (Result.ok resp2, b2) →
      resp2.StatusCode = 200 → env.decodeSet resp2.Body = Result.ok setResp →
      setResp.Result ≠ "saved" →
      (o.switchToIP env ip b).1 = some (GoError.New
        ("setHostOverride request failed: unexpected result " ++ setResp.Result)) ∧
      o.requests env ip b = [o.getRequest, o.setRequest (switchPayload override ip)]) := by
  have hne1 : o.reconfigureRequest ≠ o.getRequest := by
    simp [OpnSenseGslb.reconfigureRequest, OpnSenseGslb.getRequest, OpnSenseGslb.request]
  have hne2 : ∀ p, o.reconfigureRequest ≠ o.setRequest p := by
    intro p
    simp [OpnSenseGslb.reconfigureRequest, OpnSenseGslb.setRequest, OpnSenseGslb.request]
  refine ⟨?_, switchToIP_logging_result env o ip b, ?_⟩
  · -- nil exactly when the three steps succeed
    constructor
    · intro hnil
      rcases hget : o.getHostOverride env b with ⟨override | e, b1⟩
      · by_cases hsel : override.Host.RR.A.Selected = 1 ∨ override.Host.RR.AAAA.Selected = 1
        · by_cases hsaved : ∃ resp b2 setResp,
              o.doRequest env "POST" ("/api/unbound/settings/setHostOverride/" ++ o.recordUUID)
                (some (Payload.set (switchPayload override ip))) b1 = (Result.ok resp, b2) ∧
              resp.StatusCode = 200 ∧ env.decodeSet resp.Body = Result.ok setResp ∧
              setResp.Result = "saved"
          · obtain ⟨resp, b2, setResp, hset, hst, hdec, hsv⟩ := hsaved
            have hres := (requests_set_saved env o ip b b1 b2 override resp setResp hget hsel hset
              hst hdec hsv).2
            obtain ⟨resp3, b3, svc, h3, hst3, hdec3, hok⟩ :=
              (restartUnboundService_nil_iff env o b2).mp (hres.mp hnil)
            exact ⟨override, b1, resp, b2, setResp, resp3, b3, svc, rfl, hsel, hset, hst, hdec,
              hsv, h3, hst3, hdec3, hok⟩
          · exact absurd hnil (requests_set_failed env o ip b b1 override hget hsel hsaved).2
        · rw [switchToIP_not_selected env o ip b b1 override hget hsel] at hnil
          simp at hnil
      · rw [switchToIP_get_error env o ip b b1 e hget] at hnil
        simp at hnil
    · rintro ⟨override, b1, resp, b2, setResp, resp3, b3, svc, hget, hsel, hset, hst, hdec, hsv,
        h3, hst3, hdec3, hok⟩
      exact (requests_set_saved env o ip b b1 b2 override resp setResp hget hsel hset hst hdec
        hsv).2.mpr ((restartUnboundService_nil_iff env o b2).mpr ⟨resp3, b3, svc, h3, hst3, hdec3,
          hok⟩)
  · -- the requests
    rcases hget : o.getHostOverride env b with ⟨override | e, b1⟩
    · by_cases hsel : override.Host.RR.A.Selected = 1 ∨ override.Host.RR.AAAA.Selected = 1
      · by_cases hsaved : ∃ resp b2 setResp,
            o.doRequest env "POST" ("/api/unbound/settings/setHostOverride/" ++ o.recordUUID)
              (some (Payload.set (switchPayload override ip))) b1 = (Result.ok resp, b2) ∧
            resp.StatusCode = 200 ∧ env.decodeSet resp.Body = Result.ok setResp ∧
            setResp.Result = "saved"
        · obtain ⟨resp, b2, setResp, hset, hst, hdec, hsv⟩ := hsaved
          obtain ⟨hreq, hres⟩ := requests_set_saved env o ip b b1 b2 override resp setResp hget
            hsel hset hst hdec hsv
          refine ⟨⟨switchPayload override ip, ?_⟩, ?_, ?_, ?_, ?_⟩
          · rw [hreq]; split <;> simp
          · intro hnil
            obtain ⟨resp3, b3, svc, h3, -, -, -⟩ :=
              (restartUnboundService_nil_iff env o b2).mp (hres.mp hnil)
            refine ⟨switchPayload override ip, ?_⟩
            rw [hreq, doRequest_ok_NewRequest env o _ _ _ _ _ _ h3]
            simp
          · intro hno
            exact absurd ⟨override, b1, rfl, hsel⟩ hno
          · intro _
            exact ⟨override, b1, resp, b2, setResp, rfl, hset, hst, hdec, hsv⟩
          · intro override' b1' resp2 b2' setResp' hg' _ hset' _ hdec' hns
            simp only [Prod.mk.injEq, Result.ok.injEq] at hg'
            obtain ⟨rfl, rfl⟩ := hg'
            rw [hset] at hset'
            simp only [Prod.mk.injEq, Result.ok.injEq] at hset'
            obtain ⟨rfl, rfl⟩ := hset'
            rw [hdec] at hdec'
            simp only [Result.ok.injEq] at hdec'
            subst hdec'
            exact absurd hsv hns
        · obtain ⟨hreq, hres⟩ := requests_set_failed env o ip b b1 override hget hsel hsaved
          refine ⟨⟨switchPayload override ip, ?_⟩, ?_, ?_, ?_, ?_⟩
          · rw [hreq]; split <;> simp
          · intro hnil; exact absurd hnil hres
          · intro hno
            exact absurd ⟨override, b1, rfl, hsel⟩ hno
          · intro hmem
            rw [hreq] at hmem
            split at hmem
            · simp only [List.singleton_append, List.mem_cons, List.mem_singleton,
                List.not_mem_nil, or_false] at hmem
              rcases hmem with h | h
              · exact absurd h hne1
              · exact absurd h (hne2 _)
            · simp only [List.append_nil, List.mem_singleton] at hmem
              exact absurd hmem hne1
          · intro override' b1' resp2 b2' setResp' hg' _ hset' hst' hdec' hns
            simp only [Prod.mk.injEq, Result.ok.injEq] at hg'
            obtain ⟨rfl, rfl⟩ := hg'
            refine ⟨?_, ?_⟩
            · rw [switchToIP_selected env o ip b b1 override hget hsel, hset']
              simp [hst', hdec', hns]
            · rw [hreq, doRequest_ok_NewRequest env o _ _ _ _ _ _ hset']
              simp
      · have hreq := requests_not_selected env o ip b b1 override hget hsel
        have hres := switchToIP_not_selected env o ip b b1 override hget hsel
        refine ⟨⟨switchPayload override ip, ?_⟩, ?_, ?_, ?_, ?_⟩
        · rw [hreq]; simp
        · intro hnil; rw [hres] at hnil; simp at hnil
        · intro _
          rw [hres, hreq]
          simp
        · intro hmem
          rw [hreq] at hmem
          simp only [List.mem_singleton] at hmem
          exact absurd hmem hne1
        · intro override' b1' resp2 b2' setResp' hg' hsel' _ _ _ _
          simp only [Prod.mk.injEq, Result.ok.injEq] at hg'
          obtain ⟨rfl, rfl⟩ := hg'
          exact absurd hsel' hsel
    · have hreq := requests_get_error env o ip b b1 e hget
      have hres := switchToIP_get_error env o ip b b1 e hget
      refine ⟨⟨{ Host := ⟨"", "", "", "", "", "", "", "", ""⟩ }, ?_⟩, ?_, ?_, ?_, ?_⟩
      · exact hreq.trans ⟨[_, _], rfl⟩
      · intro hnil; rw [hres] at hnil; simp at hnil
      · intro _
        rw [hres]
        exact ⟨by simp, hreq⟩
      · intro hmem
        have := hreq.subset hmem
        simp only [List.mem_singleton] at this
        exact absurd this hne1
      · intro override' b1' resp2 b2' setResp' hg' _ _ _ _ _
        simp at hg'

/-- Witness of C22: on the storing backend the switch of `TestSwitchToPrimaryIP`
sends get, set, reconfigure and returns nil, and the rejected set of
`TestSwitchToIP_SetHostOverrideFailure` returns an error after get and set. -/
theorem switchToIP_nil_iff_and_order_witness :
    ((testProvider.switchToIP testBackend "10.0.0.1" testStore).1 = none ∧
      testProvider.requests testBackend "10.0.0.1" testStore =
        [testProvider.getRequest,
          testProvider.setRequest (switchPayload (StoreState.serve testRecord) "10.0.0.1"),
          testProvider.reconfigureRequest]) ∧
    (testProvider.switchToIP testBackend "10.0.0.1" storeRejecting).1 =
      some (GoError.New "setHostOverride request failed: unexpected result failed") ∧
    testProvider.requests testBackend "10.0.0.1" storeRejecting =
      [testProvider.getRequest,
        testProvider.setRequest (switchPayload (StoreState.serve testRecord) "10.0.0.1")] :=
  ⟨by decide,
    (switchToIP_nil_iff_and_order testBackend testProvider "10.0.0.1" storeRejecting).2.2.2.2.2.2
      (StoreState.serve testRecord) (testProvider.getHostOverride testBackend storeRejecting).2
      { StatusCode := 200, Status := "200 OK", Body := StoreBody.set { Result := "failed" } }
      (testProvider.doRequest testBackend "POST"
        ("/api/unbound/settings/setHostOverride/" ++ testProvider.recordUUID)
        (some (Payload.set (switchPayload (StoreState.serve testRecord) "10.0.0.1")))
        (testProvider.getHostOverride testBackend storeRejecting).2).2
      { Result := "failed" } rfl (Or.inl rfl) rfl rfl rfl (by decide)⟩

/-- C23: after a read that returned the record `override` with A or AAAA
selected, the second request `switchToIP(ip)` sends is the `setHostOverride`
request whose payload has `server = ip`, `rr = "A"` when A is selected and
`rr = "AAAA"` when A is not and AAAA is, and `enabled`, `hostname`, `domain`,
`mxprio`, `mx`, `ttl` and `description` as in `override`. `SwitchToPrimaryIP` is
`switchToIP` of the configured primary IP and `SwitchToSecondaryIP` of the
configured secondary IP. -/
theorem switchToIP_payload {ω β B : Type} (env : Backend β B) (o : OpnSenseGslb ω) (ip : String)
    (b b1 : β) (override : unboundGetHostOverrideResponse)
    (hget : o.getHostOverride env b = (Result.ok override, b1))
    (hsel : override.Host.RR.A.Selected = 1 ∨ override.Host.RR.AAAA.Selected = 1)
    (hnew : env.NewRequest "POST"
      (o.epHost ++ ("/api/unbound/settings/setHostOverride/" ++ o.recordUUID)) = none) :
    (∃ p rest, o.requests env ip b = o.getRequest :: o.setRequest p :: rest ∧
      p.Host.Server = ip ∧
      (override.Host.RR.A.Selected = 1 → p.Host.RR = "A") ∧
      (override.Host.RR.A.Selected ≠ 1 → override.Host.RR.AAAA.Selected = 1 →
        p.Host.RR = "AAAA") ∧
      p.Host.Enabled = override.Host.Enabled ∧ p.Host.Hostname = override.Host.Hostname ∧
      p.Host.Domain = override.Host.Domain ∧ p.Host.MXPrio = override.Host.MXPrio ∧
      p.Host.MX = override.Host.MX ∧ p.Host.TTL = override.Host.TTL ∧
      p.Host.Description = override.Host.Description) ∧
    o.SwitchToPrimaryIP env b = o.switchToIP env o.cfg.PrimaryIP b ∧
    o.SwitchToSecondaryIP env b = o.switchToIP env o.cfg.SecondaryIP b ∧
    (o.SwitchToPrimaryIP env.logging (b, [])).2.2 = o.requests env o.cfg.PrimaryIP b ∧
    (o.SwitchToSecondaryIP env.logging (b, [])).2.2 = o.requests env o.cfg.SecondaryIP b := by
  refine ⟨?_, rfl, rfl, rfl, rfl⟩
  have hfields : (switchPayload override ip).Host.Server = ip ∧
      (override.Host.RR.A.Selected = 1 → (switchPayload override ip).Host.RR = "A") ∧
      (override.Host.RR.A.Selected ≠ 1 → override.Host.RR.AAAA.Selected = 1 →
        (switchPayload override ip).Host.RR = "AAAA") ∧
      (switchPayload override ip).Host.Enabled = override.Host.Enabled ∧
      (switchPayload override ip).Host.Hostname = override.Host.Hostname ∧
      (switchPayload override ip).Host.Domain = override.Host.Domain ∧
      (switchPayload override ip).Host.MXPrio = override.Host.MXPrio ∧
      (switchPayload override ip).Host.MX = override.Host.MX ∧
      (switchPayload override ip).Host.TTL = override.Host.TTL ∧
      (switchPayload override ip).Host.Description = override.Host.Description := by
    refine ⟨rfl, ?_, ?_, rfl, rfl, rfl, rfl, rfl, rfl, rfl⟩
    · intro hA; simp [switchPayload, hA]
    · intro hA _; simp [switchPayload, hA]
  by_cases hsaved : ∃ resp b2 setResp,
      o.doRequest env "POST" ("/api/unbound/settings/setHostOverride/" ++ o.recordUUID)
        (some (Payload.set (switchPayload override ip))) b1 = (Result.ok resp, b2) ∧
      resp.StatusCode = 200 ∧ env.decodeSet resp.Body = Result.ok setResp ∧
      setResp.Result = "saved"
  · obtain ⟨resp, b2, setResp, hset, hst, hdec, hsv⟩ := hsaved
    have hreq := (requests_set_saved env o ip b b1 b2 override resp setResp hget hsel hset hst
      hdec hsv).1
    exact ⟨switchPayload override ip, _, hreq, hfields⟩
  · have hreq := (requests_set_failed env o ip b b1 override hget hsel hsaved).1
    rw [hnew] at hreq
    exact ⟨switchPayload override ip, [], hreq, hfields⟩

/-- Witness of C23: the AAAA record of `TestSwitchToIP_AAAARecord`. -/
theorem switchToIP_payload_witness :
    testProvider.requests (cannedBackend recordAAAA) "2001:db8::1" () =
      [testProvider.getRequest,
        testProvider.setRequest
          { Host := { Enabled := "1", Hostname := "test", Domain := "local", RR := "AAAA",
                      MXPrio := "", MX := "", TTL := "", Server := "2001:db8::1",
                      Description := "" } },
        testProvider.reconfigureRequest] ∧
    ∃ p rest, testProvider.requests (cannedBackend recordAAAA) "2001:db8::1" () =
      testProvider.getRequest :: testProvider.setRequest p :: rest ∧
      p.Host.Server = "2001:db8::1" :=
  have h := (switchToIP_payload (cannedBackend recordAAAA) testProvider "2001:db8::1" () ()
    recordAAAA rfl (Or.inr rfl) rfl).1
  ⟨by decide, h.imp fun _ hp => hp.imp fun _ hr => ⟨hr.1, hr.2.1⟩⟩

/-- C24: when the fetched record has both A and AAAA selected the A branch is
taken and no ambiguity error is raised: `GetCurrentIP` returns the server
address, or the error "A record selected but no server IP set" when the server
is empty, and `switchToIP` goes on to post a payload with `rr = "A"` (the set
request is its second request, and its result is never the error of a record
without selection). -/
theorem both_selected_takes_A {ω β B : Type} (env : Backend β B) (o : OpnSenseGslb ω)
    (ip : String) (b b1 : β) (override : unboundGetHostOverrideResponse)
    (hget : o.getHostOverride env b = (Result.ok override, b1))
    (hA : override.Host.RR.A.Selected = 1) (_hB : override.Host.RR.AAAA.Selected = 1) :
    (override.Host.Server ≠ "" →
      o.GetCurrentIP env b = ((override.Host.Server, none), b1)) ∧
    (override.Host.Server = "" →
      o.GetCurrentIP env b =
        (("", some (GoError.New
          "host override record has A record selected but no server IP set")), b1)) ∧
    (switchPayload override ip).Host.RR = "A" ∧
    (env.NewRequest "POST"
        (o.epHost ++ ("/api/unbound/settings/setHostOverride/" ++ o.recordUUID)) = none →
      ∃ rest, o.requests env ip b =
        o.getRequest :: o.setRequest (switchPayload override ip) :: rest) ∧
    (o.switchToIP env ip b).1 ≠
      some (GoError.New "host override record has no A or AAAA record selected") := by
  have hsel : override.Host.RR.A.Selected = 1 ∨ override.Host.RR.AAAA.Selected = 1 := Or.inl hA
  refine ⟨?_, ?_, by simp [switchPayload, hA], ?_, ?_⟩
  · intro hs
    simp [OpnSenseGslb.GetCurrentIP, hget, hA, hs]
  · intro hs
    simp [OpnSenseGslb.GetCurrentIP, hget, hA, hs]
  · intro hnew
    by_cases hsaved : ∃ resp b2 setResp,
        o.doRequest env "POST" ("/api/unbound/settings/setHostOverride/" ++ o.recordUUID)
          (some (Payload.set (switchPayload override ip))) b1 = (Result.ok resp, b2) ∧
        resp.StatusCode = 200 ∧ env.decodeSet resp.Body = Result.ok setResp ∧
        setResp.Result = "saved"
    · obtain ⟨resp, b2, setResp, hset, hst, hdec, hsv⟩ := hsaved
      exact ⟨_, (requests_set_saved env o ip b b1 b2 override resp setResp hget hsel hset hst
        hdec hsv).1⟩
    · have hreq := (requests_set_failed env o ip b b1 override hget hsel hsaved).1
      rw [hnew] at hreq
      exact ⟨[], hreq⟩
  · rw [switchToIP_selected env o ip b b1 override hget hsel]
    rcases hd : o.doRequest env "POST" ("/api/unbound/settings/setHostOverride/" ++ o.recordUUID)
      (some (Payload.set (switchPayload override ip))) b1 with ⟨r | e, b2⟩
    · by_cases hs : r.StatusCode = 200
      · cases hdec : env.decodeSet r.Body with
        | error e => simp [hs, hdec, Errorf]
        | ok setResp =>
          by_cases hsv : setResp.Result = "saved"
          · rcases hr : o.restartUnboundService env b2 with ⟨_ | e3, b3⟩ <;>
              simp [hs, hdec, hsv, hr, Errorf]
          · have hmsg : ("setHostOverride request failed: unexpected result " ++ setResp.Result)
                ≠ "host override record has no A or AAAA record selected" := by
              intro h
              have h2 := congrArg (fun t : String => t.toList.head?) h
              simp [String.toList, String.data_append] at h2
            simp [hs, hdec, hsv, hmsg]
      · have hmsg : ("setHostOverride request failed: " ++ r.Status)
            ≠ "host override record has no A or AAAA record selected" := by
          intro h
          have h2 := congrArg (fun t : String => t.toList.head?) h
          simp [String.toList, String.data_append] at h2
        simp [hs, hmsg]
    · simp [Errorf]

/-- Witness of C24: a record with both options selected, served by a canned backend. -/
theorem both_selected_takes_A_witness :
    (testProvider.GetCurrentIP (cannedBackend recordBothSelected) ()).1 = ("10.0.0.2", none) ∧
    (switchPayload recordBothSelected "10.0.0.1").Host.RR = "A" ∧
    (testProvider.switchToIP (cannedBackend recordBothSelected) "10.0.0.1" ()).1 = none :=
  have h := both_selected_takes_A (cannedBackend recordBothSelected) testProvider "10.0.0.1" () ()
    recordBothSelected rfl rfl rfl
  ⟨congrArg Prod.fst (h.1 (by decide)), h.2.2.1, by decide⟩

/-- On the storing backend a read leaves everything but the request log as it was. -/
theorem store_GetCurrentIP_state {ω : Type} (o : OpnSenseGslb ω) (st : StoreState) :
    (o.GetCurrentIP (storeBackend o.epHost o.recordUUID) st).2 =
      { st with requests := st.requests ++ [o.getRequest] } := by
  rcases st with ⟨⟨en, hn, dom, rr, mxp, mx, ttl, srv, desc⟩, acc, rec, reqs⟩
  simp only [OpnSenseGslb.GetCurrentIP, store_getHostOverride]
  by_cases hA : rr = "A"
  · by_cases hs : srv = "" <;>
      simp [StoreState.serve, hA, hs, OpnSenseGslb.getRequest, OpnSenseGslb.request]
  · by_cases hB : rr = "AAAA"
    · by_cases hs : srv = "" <;>
        simp [StoreState.serve, hB, hs, OpnSenseGslb.getRequest, OpnSenseGslb.request]
    · simp [StoreState.serve, hA, hB, OpnSenseGslb.getRequest, OpnSenseGslb.request]

/-- On a storing backend that saves the set and fails to reconfigure,
`switchToIP` returns the error of the reconfigure step, the stored record has
the new server, and the requests were get, set, reconfigure and nothing more. -/
theorem store_switchToIP_reconfigure_fails {ω : Type} (o : OpnSenseGslb ω) (ip : String)
    (st : StoreState) (hrr : st.host.RR = "A" ∨ st.host.RR = "AAAA")
    (hacc : st.acceptSet = true) (hrec : st.reconfigureOK = false) :
    o.switchToIP (storeBackend o.epHost o.recordUUID) ip st =
      (some (Errorf "restarting Unbound service: "
          (GoError.New "reconfigure request failed: unexpected result failed")),
        { st with
          host := { st.host with Server := ip },
          requests := st.requests ++
            [o.getRequest, o.setRequest { Host := { st.host with Server := ip } },
              o.reconfigureRequest] }) := by
  rcases st with ⟨⟨en, hn, dom, rr, mxp, mx, ttl, srv, desc⟩, acc, rec, reqs⟩
  simp only at hrr hacc hrec
  subst hacc hrec
  rcases hrr with h | h <;> subst h <;>
    simp only [OpnSenseGslb.switchToIP, store_getHostOverride] <;>
    simp [StoreState.serve, OpnSenseGslb.doRequest, storeBackend, okResponse,
      OpnSenseGslb.restartUnboundService, OpnSenseGslb.getRequest, OpnSenseGslb.setRequest,
      OpnSenseGslb.reconfigureRequest, OpnSenseGslb.request, Errorf]

/-- C25: `switchToIP` is not atomic. On a backend that stores an A or AAAA
record, saves the posted record and then fails to reconfigure, `switchToIP`
returns an error although the stored record already has the new IP as server;
its requests are get, set, reconfigure and nothing after them, so nothing is
rolled back. So an `eval` that finds a healthy primary and the record at another
address returns the write error while the record of the provider has changed to
the primary IP. -/
theorem switchToIP_not_atomic {ω : Type} (o : OpnSenseGslb ω) (st : StoreState) (w w1 : ω)
    (status : String)
    (hrr : st.host.RR = "A" ∨ st.host.RR = "AAAA")
    (hacc : st.acceptSet = true) (hrec : st.reconfigureOK = false)
    (hh : o.cfg.PrimaryHealthChecker.CheckHealth w = ((true, status, none), w1))
    (hsrv : st.host.Server ≠ "")
    (hne : ¬ ∃ a, ParseIP st.host.Server = some a ∧ ParseIP o.cfg.PrimaryIP = some a) :
    (∀ ip : String,
      (o.switchToIP (storeBackend o.epHost o.recordUUID) ip st).1 =
        some (Errorf "restarting Unbound service: "
          (GoError.New "reconfigure request failed: unexpected result failed")) ∧
      (o.switchToIP (storeBackend o.epHost o.recordUUID) ip st).2.host =
        { st.host with Server := ip } ∧
      (o.switchToIP (storeBackend o.epHost o.recordUUID) ip st).2.requests =
        st.requests ++ [o.getRequest, o.setRequest { Host := { st.host with Server := ip } },
          o.reconfigureRequest]) ∧
    (eval (o.provider (storeBackend o.epHost o.recordUUID)) (w, st)).1 =
      some (Errorf "updating GSLB record to primary IP: "
        (Errorf "restarting Unbound service: "
          (GoError.New "reconfigure request failed: unexpected result failed"))) ∧
    (eval (o.provider (storeBackend o.epHost o.recordUUID)) (w, st)).2.2.host.Server =
      o.cfg.PrimaryIP := by
  have hcur : (o.GetCurrentIP (storeBackend o.epHost o.recordUUID) st).1 =
      (st.host.Server, none) := by
    rw [(store_GetCurrentIP o st).1]
    rcases hrr with h | h <;> simp [h, hsrv]
  have hcp : (o.provider (storeBackend o.epHost o.recordUUID)).CheckPrimaryHealth (w, st) =
      ((true, none), (w1, st)) := by
    simp [OpnSenseGslb.provider, OpnSenseGslb.CheckPrimaryHealth, hh]
  have hg : (o.provider (storeBackend o.epHost o.recordUUID)).GetCurrentIP (w1, st) =
      ((st.host.Server, none),
        (w1, { st with requests := st.requests ++ [o.getRequest] })) := by
    simp only [OpnSenseGslb.provider, store_GetCurrentIP_state, hcur]
  have hc : compareIPs st.host.Server o.cfg.PrimaryIP = false :=
    (compareIPs_eq_false_iff _ _).mpr hne
  have hsw := store_switchToIP_reconfigure_fails o o.cfg.PrimaryIP
    { st with requests := st.requests ++ [o.getRequest] } hrr hacc hrec
  refine ⟨fun ip => ?_, ?_, ?_⟩
  · rw [store_switchToIP_reconfigure_fails o ip st hrr hacc hrec]
    exact ⟨rfl, rfl, rfl⟩
  · simp only [eval, hcp, hg]
    simp [OpnSenseGslb.provider, OpnSenseGslb.PrimaryIP, OpnSenseGslb.SwitchToPrimaryIP, hc, hsw]
  · simp only [eval, hcp, hg]
    simp [OpnSenseGslb.provider, OpnSenseGslb.PrimaryIP, OpnSenseGslb.SwitchToPrimaryIP, hc, hsw]

/-- Witness of C25: the record of the test at 10.0.0.2, a healthy primary at
10.0.0.1 and a backend whose `reconfigure` fails. -/
theorem switchToIP_not_atomic_witness :
    (eval (testProvider.provider testBackend) ((), storeNoReconfigure)).1 =
      some (Errorf "updating GSLB record to primary IP: "
        (Errorf "restarting Unbound service: "
          (GoError.New "reconfigure request failed: unexpected result failed"))) ∧
    storeNoReconfigure.host.Server = "10.0.0.2" ∧
    (eval (testProvider.provider testBackend) ((), storeNoReconfigure)).2.2.host.Server =
      "10.0.0.1" :=
  have h := switchToIP_not_atomic testProvider storeNoReconfigure () () "200 OK" (Or.inl rfl) rfl
    rfl rfl (by decide) ((compareIPs_eq_false_iff _ _).mp (by decide))
  ⟨h.2.1, rfl, h.2.2⟩

end GslbSwitcher
